import Mathlib

/-!
Verification development for the archimate-mcp repository core.

Element kinds and relationship kinds are modelled as `String`, exactly as the
TypeScript source handles them.  Functions are shallow embeddings of the
corresponding source functions; each definition carries the name of the source
function it embeds.  JavaScript exceptions are modelled with `Option`/`Except`;
JavaScript string truthiness (`undefined` and the empty string are falsy) is
modelled explicitly via `strTruthy`, `strAttr` and `jsOr`.
-/

namespace ArchiMate

/-! ## Taxonomy tables (src/model/types.ts, compiled as dist/model/types.js) -/

/-- MotivationElementTypes from types.js. -/
def MotivationElementTypes : List String :=
  ["Stakeholder", "Driver", "Assessment", "Goal", "Outcome",
   "Principle", "Requirement", "Constraint", "Meaning", "Value"]

/-- StrategyElementTypes from types.js. -/
def StrategyElementTypes : List String :=
  ["Resource", "Capability", "ValueStream", "CourseOfAction"]

/-- BusinessElementTypes from types.js. -/
def BusinessElementTypes : List String :=
  ["BusinessActor", "BusinessRole", "BusinessCollaboration", "BusinessInterface",
   "BusinessProcess", "BusinessFunction", "BusinessInteraction", "BusinessEvent",
   "BusinessService", "BusinessObject", "Contract", "Representation", "Product"]

/-- ApplicationElementTypes from types.js. -/
def ApplicationElementTypes : List String :=
  ["ApplicationComponent", "ApplicationCollaboration", "ApplicationInterface",
   "ApplicationFunction", "ApplicationInteraction", "ApplicationProcess",
   "ApplicationEvent", "ApplicationService", "DataObject"]

/-- TechnologyElementTypes from types.js (includes the physical kinds). -/
def TechnologyElementTypes : List String :=
  ["Node", "Device", "SystemSoftware", "TechnologyCollaboration", "TechnologyInterface",
   "Path", "CommunicationNetwork", "TechnologyFunction", "TechnologyProcess",
   "TechnologyInteraction", "TechnologyEvent", "TechnologyService", "Artifact",
   "Equipment", "Facility", "DistributionNetwork", "Material"]

/-- ImplementationElementTypes from types.js. -/
def ImplementationElementTypes : List String :=
  ["WorkPackage", "Deliverable", "ImplementationEvent", "Plateau", "Gap"]

/-- CompositeElementTypes from types.js. -/
def CompositeElementTypes : List String :=
  ["Grouping", "Location"]

/-- AllElementTypes from types.js: the concatenation of the seven layer lists. -/
def AllElementTypes : List String :=
  MotivationElementTypes ++ StrategyElementTypes ++ BusinessElementTypes ++
  ApplicationElementTypes ++ TechnologyElementTypes ++ ImplementationElementTypes ++
  CompositeElementTypes

/-- RelationshipTypes from types.js, in the fixed enumeration order. -/
def RelationshipTypes : List String :=
  ["Composition", "Aggregation", "Assignment", "Realization",
   "Serving", "Access", "Influence", "Association",
   "Triggering", "Flow", "Specialization"]

/-- The Layer union type from types.ts. -/
inductive Layer where
  | Motivation
  | Strategy
  | Business
  | Application
  | Technology
  | Physical
  | Implementation
  | Composite
deriving DecidableEq, BEq, Repr

/-- The element-category strings returned by getElementCategory in
validation.js, together with Interface which the spec lists as a category
(the source never returns it: interface kinds are classified ActiveStructure). -/
inductive Category where
  | ActiveStructure
  | Interface
  | BehaviorInternal
  | BehaviorExternal
  | Event
  | PassiveStructure
  | Strategy
  | Motivation
  | ImplementationMigration
  | Composite
deriving DecidableEq, BEq, Repr

/-- The physicalTypes list inside getLayerForElementType (types.js). -/
def physicalTypes : List String :=
  ["Equipment", "Facility", "DistributionNetwork", "Material"]

/-- getLayerForElementType from types.js.  The JavaScript function throws
`Unknown element type` for a kind outside all enumerations; the throw is
modelled as `none`. -/
def getLayerForElementType (elementType : String) : Option Layer :=
  if elementType ∈ MotivationElementTypes then some .Motivation
  else if elementType ∈ StrategyElementTypes then some .Strategy
  else if elementType ∈ BusinessElementTypes then some .Business
  else if elementType ∈ ApplicationElementTypes then some .Application
  else if elementType ∈ TechnologyElementTypes then
    (if elementType ∈ physicalTypes then some .Physical else some .Technology)
  else if elementType ∈ ImplementationElementTypes then some .Implementation
  else if elementType ∈ CompositeElementTypes then some .Composite
  else none

/-- LayerFolderTypes from types.js: layer to folder kind-tag. -/
def LayerFolderTypes : Layer → String
  | .Motivation => "motivation"
  | .Strategy => "strategy"
  | .Business => "business"
  | .Application => "application"
  | .Technology => "technology"
  | .Physical => "technology"
  | .Implementation => "implementation_migration"
  | .Composite => "other"

/-! ## Relationship validity engine (dist/relationships/validation.js) -/

/-- The activeStructure list in getElementCategory (validation.js). -/
def activeStructure : List String :=
  ["BusinessActor", "BusinessRole", "BusinessCollaboration",
   "ApplicationComponent", "ApplicationCollaboration",
   "Node", "Device", "SystemSoftware", "TechnologyCollaboration",
   "Equipment", "Facility"]

/-- The interfaces list in getElementCategory (validation.js). -/
def interfaces : List String :=
  ["BusinessInterface", "ApplicationInterface", "TechnologyInterface"]

/-- The behaviorInternal list in getElementCategory (validation.js). -/
def behaviorInternal : List String :=
  ["BusinessProcess", "BusinessFunction", "BusinessInteraction",
   "ApplicationFunction", "ApplicationInteraction", "ApplicationProcess",
   "TechnologyFunction", "TechnologyProcess", "TechnologyInteraction"]

/-- The services list in getElementCategory (validation.js). -/
def services : List String :=
  ["BusinessService", "ApplicationService", "TechnologyService"]

/-- The events list in getElementCategory (validation.js). -/
def events : List String :=
  ["BusinessEvent", "ApplicationEvent", "TechnologyEvent", "ImplementationEvent"]

/-- The passiveStructure list in getElementCategory (validation.js). -/
def passiveStructure : List String :=
  ["BusinessObject", "Contract", "Representation",
   "DataObject", "Artifact", "Material"]

/-- The strategy list in getElementCategory (validation.js). -/
def strategyList : List String :=
  ["Resource", "Capability", "ValueStream", "CourseOfAction"]

/-- The motivation list in getElementCategory (validation.js). -/
def motivationList : List String :=
  ["Stakeholder", "Driver", "Assessment", "Goal", "Outcome",
   "Principle", "Requirement", "Constraint", "Meaning", "Value"]

/-- The implMigration list in getElementCategory (validation.js). -/
def implMigration : List String :=
  ["WorkPackage", "Deliverable", "Plateau", "Gap"]

/-- The composite list in getElementCategory (validation.js). -/
def compositeList : List String :=
  ["Grouping", "Location", "Product"]

/-- getElementCategory from validation.js: classify an element type into its
category, defaulting to Composite for unrecognized kinds. -/
def getElementCategory (elementType : String) : Category :=
  if elementType ∈ activeStructure ∨ elementType ∈ interfaces then .ActiveStructure
  else if elementType ∈ behaviorInternal then .BehaviorInternal
  else if elementType ∈ services then .BehaviorExternal
  else if elementType ∈ events then .Event
  else if elementType ∈ passiveStructure then .PassiveStructure
  else if elementType ∈ strategyList then .Strategy
  else if elementType ∈ motivationList then .Motivation
  else if elementType ∈ implMigration then .ImplementationMigration
  else if elementType ∈ compositeList then .Composite
  else .Composite

/-- getLayerLevel from validation.js: the layer hierarchy level. -/
def getLayerLevel : Layer → Nat
  | .Motivation => 0
  | .Strategy => 1
  | .Business => 2
  | .Application => 3
  | .Technology => 4
  | .Physical => 4
  | .Implementation => 5
  | .Composite => 6

/-- isValidRelationship from validation.js.  The source eagerly computes both
layers (getLayerForElementType throws on unknown kinds, modelled by the Option
binds) before the switch on the relationship type.  isSameLayer(s, t) is the
equality of the two already-computed layers. -/
def isValidRelationship (sourceType targetType relationshipType : String) : Option Bool := do
  let sourceCategory := getElementCategory sourceType
  let targetCategory := getElementCategory targetType
  let sourceLayer ← getLayerForElementType sourceType
  let targetLayer ← getLayerForElementType targetType
  pure (match relationshipType with
    | "Composition" | "Aggregation" =>
        sourceType == targetType || sourceCategory == .Composite ||
        targetCategory == .Composite || sourceLayer == targetLayer
    | "Specialization" => sourceType == targetType
    | "Assignment" =>
        (sourceCategory == .ActiveStructure &&
          (targetCategory == .BehaviorInternal || targetCategory == .BehaviorExternal)) ||
        (sourceCategory == .BehaviorInternal && targetCategory == .PassiveStructure) ||
        (sourceType == "WorkPackage" && sourceCategory == .ActiveStructure)
    | "Realization" =>
        (sourceCategory == .BehaviorInternal && targetCategory == .BehaviorExternal) ||
        decide (getLayerLevel sourceLayer > getLayerLevel targetLayer) ||
        targetCategory == .Strategy || targetCategory == .Motivation ||
        sourceType == "Artifact"
    | "Serving" =>
        sourceCategory == .BehaviorExternal ||
        (sourceCategory == .ActiveStructure && targetCategory == .ActiveStructure) ||
        decide (getLayerLevel sourceLayer > getLayerLevel targetLayer) ||
        (sourceType == "Capability" && targetType == "ValueStream") ||
        sourceLayer == targetLayer
    | "Access" =>
        (sourceCategory == .BehaviorInternal || sourceCategory == .BehaviorExternal ||
         sourceCategory == .Event) && targetCategory == .PassiveStructure
    | "Influence" => targetCategory == .Motivation
    | "Triggering" =>
        sourceCategory == .Event || sourceCategory == .BehaviorInternal ||
        sourceCategory == .BehaviorExternal || targetCategory == .Event ||
        targetCategory == .BehaviorInternal || targetCategory == .BehaviorExternal ||
        sourceCategory == .ImplementationMigration || targetCategory == .ImplementationMigration
    | "Flow" =>
        sourceCategory == .BehaviorInternal || sourceCategory == .BehaviorExternal ||
        sourceCategory == .Event || targetCategory == .BehaviorInternal ||
        targetCategory == .BehaviorExternal || targetCategory == .Event ||
        sourceCategory == .PassiveStructure || targetCategory == .PassiveStructure
    | "Association" => true
    | _ => false)

/-- The allTypes list local to getValidRelationshipTypes (validation.js). -/
def validationAllTypes : List String :=
  ["Composition", "Aggregation", "Assignment", "Realization",
   "Serving", "Access", "Influence", "Association",
   "Triggering", "Flow", "Specialization"]

/-- The filter inside getValidRelationshipTypes.  A JavaScript filter whose
predicate throws propagates the throw, hence the Option threading. -/
def filterValidTypes (sourceType targetType : String) : List String → Option (List String)
  | [] => some []
  | r :: rs => do
      let b ← isValidRelationship sourceType targetType r
      let rest ← filterValidTypes sourceType targetType rs
      pure (if b then r :: rest else rest)

/-- getValidRelationshipTypes from validation.js. -/
def getValidRelationshipTypes (sourceType targetType : String) : Option (List String) :=
  filterValidTypes sourceType targetType validationAllTypes

/-- The result shape of validateRelationship (validation.js): `{valid}` or
`{valid, error, suggestions}`. -/
structure ValidationResult where
  valid : Bool
  error : Option String
  suggestions : Option (List String)
deriving DecidableEq, Repr

/-- validateRelationship from validation.js. -/
def validateRelationship (sourceType targetType relationshipType : String) :
    Option ValidationResult := do
  let ok ← isValidRelationship sourceType targetType relationshipType
  if ok then
    pure { valid := true, error := none, suggestions := none }
  else do
    let validTypes ← getValidRelationshipTypes sourceType targetType
    if validTypes.length == 0 then
      pure { valid := false,
             error := some ("No valid relationships exist between " ++ sourceType ++
               " and " ++ targetType ++ " in ArchiMate 3.2"),
             suggestions := some [] }
    else
      pure { valid := false,
             error := some (relationshipType ++ " is not a valid relationship between " ++
               sourceType ++ " and " ++ targetType),
             suggestions := some validTypes }

/-- The list of the ten categories named by the specification. -/
def allCategories : List Category :=
  [.ActiveStructure, .Interface, .BehaviorInternal, .BehaviorExternal, .Event,
   .PassiveStructure, .Strategy, .Motivation, .ImplementationMigration, .Composite]

/-! ## Domain model (src/model/types.ts interfaces)

Optional TypeScript fields are `Option`; the optional list-valued fields
(`properties`, `sourceConnections`, `targetConnectionIds`, `bendpoints`,
`children`) are plain lists, with the absent field identified with the empty
list (every producer in the source treats them identically). -/

/-- ArchiMateProperty from types.ts. -/
structure ArchiMateProperty where
  key : String
  value : String
deriving DecidableEq, Repr

/-- ArchiMateElement from types.ts. -/
structure ArchiMateElement where
  id : String
  type : String
  name : String
  documentation : Option String
  properties : List ArchiMateProperty
deriving DecidableEq, Repr

/-- ArchiMateRelationship from types.ts. -/
structure ArchiMateRelationship where
  id : String
  type : String
  sourceId : String
  targetId : String
  name : Option String
  documentation : Option String
  accessType : Option String
  influenceModifier : Option String
  properties : List ArchiMateProperty
deriving DecidableEq, Repr

/-- DiagramBounds from types.ts (layout units are integers). -/
structure DiagramBounds where
  x : Int
  y : Int
  width : Int
  height : Int
deriving DecidableEq, Repr

/-- DiagramBendpoint from types.ts. -/
structure DiagramBendpoint where
  x : Int
  y : Int
deriving DecidableEq, Repr

/-- DiagramConnection from types.ts. -/
structure DiagramConnection where
  id : String
  sourceId : String
  targetId : String
  relationshipId : String
  bendpoints : List DiagramBendpoint
deriving DecidableEq, Repr

/-- DiagramObject from types.ts; recursive through `children`. -/
inductive DiagramObject where
  | mk (id : String) (elementId : String) (bounds : DiagramBounds)
       (sourceConnections : List DiagramConnection)
       (targetConnectionIds : List String)
       (children : List DiagramObject)

/-- The id field of a DiagramObject. -/
def DiagramObject.id : DiagramObject → String
  | .mk i _ _ _ _ _ => i

/-- The elementId field of a DiagramObject. -/
def DiagramObject.elementId : DiagramObject → String
  | .mk _ e _ _ _ _ => e

/-- The bounds field of a DiagramObject. -/
def DiagramObject.bounds : DiagramObject → DiagramBounds
  | .mk _ _ b _ _ _ => b

/-- The sourceConnections field of a DiagramObject. -/
def DiagramObject.sourceConnections : DiagramObject → List DiagramConnection
  | .mk _ _ _ sc _ _ => sc

/-- The targetConnectionIds field of a DiagramObject. -/
def DiagramObject.targetConnectionIds : DiagramObject → List String
  | .mk _ _ _ _ t _ => t

/-- The children field of a DiagramObject. -/
def DiagramObject.children : DiagramObject → List DiagramObject
  | .mk _ _ _ _ _ c => c

/-- Replace the sourceConnections field of a DiagramObject (used by the
embedding of the in-place mutation in removeRelationshipFromModel). -/
def DiagramObject.setSourceConnections : DiagramObject → List DiagramConnection → DiagramObject
  | .mk i e b _ t c, sc => .mk i e b sc t c

/-- ArchiMateDiagram from types.ts. -/
structure ArchiMateDiagram where
  id : String
  name : String
  viewpoint : Option String
  documentation : Option String
  objects : List DiagramObject

/-- ArchiMateFolder from types.ts; recursive through `subfolders`. -/
inductive ArchiMateFolder where
  | mk (id : String) (name : String) (type : String)
       (elements : List ArchiMateElement)
       (subfolders : List ArchiMateFolder)

/-- The id field of an ArchiMateFolder. -/
def ArchiMateFolder.id : ArchiMateFolder → String
  | .mk i _ _ _ _ => i

/-- The name field of an ArchiMateFolder. -/
def ArchiMateFolder.name : ArchiMateFolder → String
  | .mk _ n _ _ _ => n

/-- The type field of an ArchiMateFolder (the folder kind-tag). -/
def ArchiMateFolder.type : ArchiMateFolder → String
  | .mk _ _ t _ _ => t

/-- The elements field of an ArchiMateFolder. -/
def ArchiMateFolder.elements : ArchiMateFolder → List ArchiMateElement
  | .mk _ _ _ es _ => es

/-- The subfolders field of an ArchiMateFolder. -/
def ArchiMateFolder.subfolders : ArchiMateFolder → List ArchiMateFolder
  | .mk _ _ _ _ sf => sf

/-- ArchiMateModel from types.ts. -/
structure ArchiMateModel where
  id : String
  name : String
  version : String
  documentation : Option String
  folders : List ArchiMateFolder
  relationships : List ArchiMateRelationship
  diagrams : List ArchiMateDiagram

/-! ## JavaScript string-truthiness helpers -/

/-- An optional string attribute written only when truthy:
`if (x) obj.attr = x` for `x` of type `string | undefined`. -/
def strTruthy : Option String → Option String
  | some s => if s == "" then none else some s
  | none => none

/-- A string attribute written only when truthy: `if (x) obj.attr = x`
for a plain string `x`. -/
def strAttr (s : String) : Option String :=
  if s == "" then none else some s

/-- `x || d` on strings, with `x` possibly absent. -/
def jsOr (o : Option String) (d : String) : String :=
  match o with
  | some s => if s == "" then d else s
  | none => d

/-- `Number(x) || d` on an integer attribute, with `x` possibly absent
(JavaScript treats 0 as falsy, so a present 0 still yields the default). -/
def jsOrInt (o : Option Int) (d : Int) : Int :=
  match o with
  | some v => if v == 0 then d else v
  | none => d

/-! ## Mutation operations (src/model/writer.ts) -/

mutual

/-- The removeFromFolder recursion inside removeElementFromModel (writer.ts):
filters the element out of this folder and recurses into subfolders. -/
def removeFromFolder (elementId : String) : ArchiMateFolder → ArchiMateFolder
  | .mk i n t es sf =>
      .mk i n t (es.filter (fun e => e.id != elementId)) (removeFromFolders elementId sf)

/-- removeFromFolder mapped over a folder list. -/
def removeFromFolders (elementId : String) : List ArchiMateFolder → List ArchiMateFolder
  | [] => []
  | f :: fs => removeFromFolder elementId f :: removeFromFolders elementId fs

end

/-- removeElementFromModel from writer.ts: removes the element from every
folder (recursively), removes relationships touching it, and filters the
top-level objects of every diagram. -/
def removeElementFromModel (model : ArchiMateModel) (elementId : String) : ArchiMateModel :=
  { model with
    folders := removeFromFolders elementId model.folders,
    relationships := model.relationships.filter
      (fun r => r.sourceId != elementId && r.targetId != elementId),
    diagrams := model.diagrams.map
      (fun d => { d with objects := d.objects.filter (fun o => o.elementId != elementId) }) }

/-- removeRelationshipFromModel from writer.ts: removes the relationship and
filters the sourceConnections of the top-level objects of every diagram. -/
def removeRelationshipFromModel (model : ArchiMateModel) (relationshipId : String) :
    ArchiMateModel :=
  { model with
    relationships := model.relationships.filter (fun r => r.id != relationshipId),
    diagrams := model.diagrams.map
      (fun d => { d with objects := (d.objects.map
        (fun o => o.setSourceConnections
          (o.sourceConnections.filter (fun c => c.relationshipId != relationshipId)))) }) }

/-! ## Collectors and observation keys -/

mutual

/-- The collectFromFolder recursion inside getAllElements (parser.ts). -/
def collectFolderElements : ArchiMateFolder → List ArchiMateElement
  | .mk _ _ _ es sf => es ++ collectFoldersElements sf

/-- collectFolderElements over a folder list. -/
def collectFoldersElements : List ArchiMateFolder → List ArchiMateElement
  | [] => []
  | f :: fs => collectFolderElements f ++ collectFoldersElements fs

end

/-- getAllElements from parser.ts: every element of every folder, in folder
traversal order. -/
def getAllElements (model : ArchiMateModel) : List ArchiMateElement :=
  collectFoldersElements model.folders

mutual

/-- Count the diagram objects (at any nesting depth) whose elementId is the
given id. -/
def objCountElementRefs (elementId : String) : DiagramObject → Nat
  | .mk _ eid _ _ _ cs =>
      (if eid = elementId then 1 else 0) + objsCountElementRefs elementId cs

/-- objCountElementRefs summed over a list of objects. -/
def objsCountElementRefs (elementId : String) : List DiagramObject → Nat
  | [] => 0
  | o :: os => objCountElementRefs elementId o + objsCountElementRefs elementId os

end

/-- Count, across all diagrams of a model, the diagram objects (at any
nesting depth) whose elementId is the given id. -/
def modelCountElementRefs (model : ArchiMateModel) (elementId : String) : Nat :=
  (model.diagrams.map (fun d => objsCountElementRefs elementId d.objects)).sum

mutual

/-- Count the diagram connections (held by objects at any nesting depth)
whose relationshipId is the given id. -/
def objCountConnRefs (relationshipId : String) : DiagramObject → Nat
  | .mk _ _ _ sc _ cs =>
      (sc.filter (fun c => c.relationshipId = relationshipId)).length +
      objsCountConnRefs relationshipId cs

/-- objCountConnRefs summed over a list of objects. -/
def objsCountConnRefs (relationshipId : String) : List DiagramObject → Nat
  | [] => 0
  | o :: os => objCountConnRefs relationshipId o + objsCountConnRefs relationshipId os

end

/-- Count, across all diagrams of a model, the diagram connections whose
relationshipId is the given id. -/
def modelCountConnRefs (model : ArchiMateModel) (relationshipId : String) : Nat :=
  (model.diagrams.map (fun d => objsCountConnRefs relationshipId d.objects)).sum

/-- The observable fields of an element named by the round-trip claims:
id, kind, name, documentation. -/
def elementKey (e : ArchiMateElement) : String × String × String × Option String :=
  (e.id, e.type, e.name, e.documentation)

/-- The observable fields of a relationship named by the hierarchical
round-trip claim: id, kind, name, documentation. -/
def relationshipKey (r : ArchiMateRelationship) : String × String × Option String × Option String :=
  (r.id, r.type, r.name, r.documentation)

/-- The observable fields of a relationship named by the flat round-trip
claim: id, kind, name, documentation, source and target references. -/
def exRelationshipKey (r : ArchiMateRelationship) :
    String × String × Option String × Option String × String × String :=
  (r.id, r.type, r.name, r.documentation, r.sourceId, r.targetId)

/-- The shape of a diagram object retained by the hierarchical round-trip
claim: id, element reference, bounds, full connections (with bendpoints) and
the recursive child shapes.  The targetConnectionIds field is not part of the
claim and is excluded (its space-joined encoding is not injective). -/
inductive ObjShape where
  | mk (id : String) (elementId : String) (bounds : DiagramBounds)
       (conns : List DiagramConnection) (children : List ObjShape)

mutual

/-- Project a diagram object to its ObjShape. -/
def objShape : DiagramObject → ObjShape
  | .mk i e b sc _ cs => .mk i e b sc (objShapes cs)

/-- objShape over a list of objects. -/
def objShapes : List DiagramObject → List ObjShape
  | [] => []
  | o :: os => objShape o :: objShapes os

end

/-- The observable fields of a diagram named by the hierarchical round-trip
claim. -/
def diagramKey (d : ArchiMateDiagram) :
    String × String × Option String × List ObjShape :=
  (d.id, d.name, d.documentation, objShapes d.objects)

mutual

/-- Pre-order flattening of a diagram-object tree to (id, elementId, bounds)
triples, matching the node order produced by the flat writer. -/
def flattenNodeKey : DiagramObject → List (String × String × DiagramBounds)
  | .mk i e b _ _ cs => (i, e, b) :: flattenNodeKeys cs

/-- flattenNodeKey over a list of objects. -/
def flattenNodeKeys : List DiagramObject → List (String × String × DiagramBounds)
  | [] => []
  | o :: os => flattenNodeKey o ++ flattenNodeKeys os

end

/-- The observable fields of a diagram named by the flat round-trip claim:
identity, name, documentation, and the (id, elementId, bounds) of every
diagram object at any depth (the flat codec flattens nesting). -/
def exDiagramKey (d : ArchiMateDiagram) :
    String × String × Option String × List (String × String × DiagramBounds) :=
  (d.id, d.name, d.documentation, flattenNodeKeys d.objects)

/-! ## Hierarchical codec document trees

The coArchi `.archimate` XML is modelled at the level of the object tree the
writer (writer.ts) hands to fast-xml-parser XMLBuilder and the reader
(parser.ts) receives from XMLParser.  The XML text serialization between the
two is modelled as the identity on these trees: integer-valued attributes are
stored as `Option Int` (the writer stringifies an integer and the reader
parseInts it back), and an absent optional child list is identified with the
empty list (the reader wraps both with toArray). -/

/-- An XML property child: `@_key`, `@_value`. -/
structure HProperty where
  key : String
  value : String
deriving DecidableEq, Repr

/-- An XML bounds child: the four optional numeric attributes. -/
structure HBounds where
  x : Option Int
  y : Option Int
  width : Option Int
  height : Option Int
deriving DecidableEq, Repr

/-- An XML bendpoint child. -/
structure HBendpoint where
  x : Option Int
  y : Option Int
deriving DecidableEq, Repr

/-- A sourceConnection XML child (the XmlConnection interface of parser.ts:
id/source/target are required attributes, archimateRelationship optional). -/
structure HConnection where
  id : String
  sourceId : String
  targetId : String
  archimateRelationship : Option String
  bendpoints : List HBendpoint
deriving DecidableEq, Repr

/-- An `element` entry of a folder, or a diagram `child` node (the XmlElement
interface of parser.ts, which merges every entry shape). -/
inductive HEntry where
  | mk (xsiType : Option String)
       (id : Option String)
       (name : Option String)
       (source : Option String)
       (target : Option String)
       (accessTypeAttr : Option String)
       (modifier : Option String)
       (documentation : Option String)
       (properties : List HProperty)
       (archimateElement : Option String)
       (targetConnections : Option String)
       (bounds : Option HBounds)
       (sourceConnections : List HConnection)
       (children : List HEntry)

/-- The xsiType attribute of an HEntry. -/
def HEntry.xsiType : HEntry → Option String
  | .mk t _ _ _ _ _ _ _ _ _ _ _ _ _ => t

/-- The id attribute of an HEntry. -/
def HEntry.id : HEntry → Option String
  | .mk _ i _ _ _ _ _ _ _ _ _ _ _ _ => i

/-- The name attribute of an HEntry. -/
def HEntry.name : HEntry → Option String
  | .mk _ _ n _ _ _ _ _ _ _ _ _ _ _ => n

/-- The source attribute of an HEntry. -/
def HEntry.source : HEntry → Option String
  | .mk _ _ _ s _ _ _ _ _ _ _ _ _ _ => s

/-- The target attribute of an HEntry. -/
def HEntry.target : HEntry → Option String
  | .mk _ _ _ _ t _ _ _ _ _ _ _ _ _ => t

/-- The accessType attribute of an HEntry. -/
def HEntry.accessTypeAttr : HEntry → Option String
  | .mk _ _ _ _ _ a _ _ _ _ _ _ _ _ => a

/-- The modifier attribute of an HEntry. -/
def HEntry.modifier : HEntry → Option String
  | .mk _ _ _ _ _ _ m _ _ _ _ _ _ _ => m

/-- The documentation child of an HEntry. -/
def HEntry.documentation : HEntry → Option String
  | .mk _ _ _ _ _ _ _ d _ _ _ _ _ _ => d

/-- The property children of an HEntry. -/
def HEntry.properties : HEntry → List HProperty
  | .mk _ _ _ _ _ _ _ _ p _ _ _ _ _ => p

/-- The archimateElement attribute of an HEntry. -/
def HEntry.archimateElement : HEntry → Option String
  | .mk _ _ _ _ _ _ _ _ _ a _ _ _ _ => a

/-- The targetConnections attribute of an HEntry. -/
def HEntry.targetConnections : HEntry → Option String
  | .mk _ _ _ _ _ _ _ _ _ _ t _ _ _ => t

/-- The bounds child of an HEntry. -/
def HEntry.bounds : HEntry → Option HBounds
  | .mk _ _ _ _ _ _ _ _ _ _ _ b _ _ => b

/-- The sourceConnection children of an HEntry. -/
def HEntry.sourceConnections : HEntry → List HConnection
  | .mk _ _ _ _ _ _ _ _ _ _ _ _ s _ => s

/-- The child children of an HEntry. -/
def HEntry.children : HEntry → List HEntry
  | .mk _ _ _ _ _ _ _ _ _ _ _ _ _ c => c

/-- A folder XML element (the XmlFolder interface of parser.ts: name and id
are required attributes, type optional). -/
inductive HFolder where
  | mk (id : String) (name : String) (type : Option String)
       (elements : List HEntry) (folders : List HFolder)

/-- The id attribute of an HFolder. -/
def HFolder.id : HFolder → String
  | .mk i _ _ _ _ => i

/-- The name attribute of an HFolder. -/
def HFolder.name : HFolder → String
  | .mk _ n _ _ _ => n

/-- The type attribute of an HFolder. -/
def HFolder.type : HFolder → Option String
  | .mk _ _ t _ _ => t

/-- The element children of an HFolder. -/
def HFolder.elements : HFolder → List HEntry
  | .mk _ _ _ es _ => es

/-- The folder children of an HFolder. -/
def HFolder.folders : HFolder → List HFolder
  | .mk _ _ _ _ fs => fs

/-- The archimate:model root element. -/
structure HModel where
  id : String
  name : String
  version : Option String
  documentation : Option String
  folders : List HFolder

/-! ## XML qualified-type maps (types.js)

The source holds two literal tables mapping each enumerated kind K to the
qualified name archimate:K (elements) or archimate:KRelationship
(relationships) and back.  Every entry of both source tables follows that
uniform scheme, in enumeration order, so the tables are embedded as the
corresponding association lists. -/

/-- The entry list of XmlTypeToElementType / ElementTypeToXmlType (types.js):
(qualified xml name, element kind) in table order. -/
def XmlElementTypePairs : List (String × String) :=
  AllElementTypes.map (fun t => ("archimate:" ++ t, t))

/-- XmlTypeToElementType from types.js (a record lookup; a missing key is
`none`). -/
def XmlTypeToElementType (x : String) : Option String :=
  (XmlElementTypePairs.find? (fun p => p.1 == x)).map (fun p => p.2)

/-- ElementTypeToXmlType from types.js. -/
def ElementTypeToXmlType (t : String) : Option String :=
  (XmlElementTypePairs.find? (fun p => p.2 == t)).map (fun p => p.1)

/-- The entry list of XmlTypeToRelationshipType / RelationshipTypeToXmlType
(types.js). -/
def XmlRelationshipTypePairs : List (String × String) :=
  RelationshipTypes.map (fun t => ("archimate:" ++ t ++ "Relationship", t))

/-- XmlTypeToRelationshipType from types.js. -/
def XmlTypeToRelationshipType (x : String) : Option String :=
  (XmlRelationshipTypePairs.find? (fun p => p.1 == x)).map (fun p => p.2)

/-- RelationshipTypeToXmlType from types.js. -/
def RelationshipTypeToXmlType (t : String) : Option String :=
  (XmlRelationshipTypePairs.find? (fun p => p.2 == t)).map (fun p => p.1)

/-! ## Hierarchical writer (writer.ts) -/

/-- buildProperties from writer.ts. -/
def buildProperties (props : List ArchiMateProperty) : List HProperty :=
  props.map (fun p => ⟨p.key, p.value⟩)

/-- buildElement from writer.ts. -/
def buildElement (element : ArchiMateElement) : HEntry :=
  .mk (ElementTypeToXmlType element.type)
      (some element.id)
      (some element.name)
      none none none none
      (strTruthy element.documentation)
      (buildProperties element.properties)
      none none none [] []

/-- The accessMap literal inside buildRelationship (writer.ts). -/
def accessTypeWriteMap (a : String) : Option String :=
  if a == "Read" then some "1"
  else if a == "Write" then some "2"
  else if a == "ReadWrite" then some "3"
  else none

/-- buildRelationship from writer.ts.  The accessType attribute is emitted
only for a truthy Access qualifier, as `accessMap[q] || '3'`; the modifier
attribute only for a truthy Influence qualifier. -/
def buildRelationship (rel : ArchiMateRelationship) : HEntry :=
  .mk (RelationshipTypeToXmlType rel.type)
      (some rel.id)
      (strTruthy rel.name)
      (some rel.sourceId)
      (some rel.targetId)
      (if rel.type == "Access" then
         (strTruthy rel.accessType).map (fun a => (accessTypeWriteMap a).getD "3")
       else none)
      (if rel.type == "Influence" then strTruthy rel.influenceModifier else none)
      (strTruthy rel.documentation)
      (buildProperties rel.properties)
      none none none [] []

/-- buildConnection from writer.ts. -/
def buildConnection (conn : DiagramConnection) : HConnection :=
  ⟨conn.id, conn.sourceId, conn.targetId, strAttr conn.relationshipId,
   conn.bendpoints.map (fun bp => ⟨some bp.x, some bp.y⟩)⟩

mutual

/-- buildDiagramObject from writer.ts.  The targetConnections attribute is the
space-joined id list, emitted when the list is non-empty; bounds are always
emitted; sourceConnection and child children when non-empty (the empty list is
the tree-level identification of absence). -/
def buildDiagramObject : DiagramObject → HEntry
  | .mk id elementId bounds sourceConnections targetConnectionIds children =>
      .mk (some "archimate:DiagramObject")
          (some id)
          none none none none none none []
          (strAttr elementId)
          (if targetConnectionIds.isEmpty then none
           else some (String.intercalate " " targetConnectionIds))
          (some ⟨some bounds.x, some bounds.y, some bounds.width, some bounds.height⟩)
          (sourceConnections.map buildConnection)
          (buildDiagramObjects children)

/-- buildDiagramObject over a list of objects. -/
def buildDiagramObjects : List DiagramObject → List HEntry
  | [] => []
  | o :: os => buildDiagramObject o :: buildDiagramObjects os

end

/-- buildDiagram from writer.ts. -/
def buildDiagram (diagram : ArchiMateDiagram) : HEntry :=
  .mk (some "archimate:ArchimateDiagramModel")
      (some diagram.id)
      (some diagram.name)
      none none none none
      (strTruthy diagram.documentation)
      [] none none none []
      (buildDiagramObjects diagram.objects)

mutual

/-- buildFolder from writer.ts (the type attribute is emitted when truthy). -/
def buildFolder : ArchiMateFolder → HFolder
  | .mk id name type elements subfolders =>
      .mk id name (strAttr type) (elements.map buildElement) (buildFolders subfolders)

/-- buildFolder over a list of folders. -/
def buildFolders : List ArchiMateFolder → List HFolder
  | [] => []
  | f :: fs => buildFolder f :: buildFolders fs

end

/-- The per-top-level-folder branch of writeModel (writer.ts): a folder tagged
`relations` is emitted with the model relationships as its entries (its own
elements and subfolders are dropped); a folder tagged `diagrams` is emitted
with the model diagrams as its entries plus its subfolders; every other folder
is emitted by buildFolder. -/
def writeTopFolder (model : ArchiMateModel) (folder : ArchiMateFolder) : HFolder :=
  if folder.type == "relations" then
    .mk folder.id folder.name (some folder.type)
        (model.relationships.map buildRelationship) []
  else if folder.type == "diagrams" then
    .mk folder.id folder.name (some folder.type)
        (model.diagrams.map buildDiagram) (buildFolders folder.subfolders)
  else buildFolder folder

/-- writeModel from writer.ts, up to (but not including) XML text
serialization and the file write. -/
def writeModelXml (model : ArchiMateModel) : HModel :=
  { id := model.id,
    name := model.name,
    version := some model.version,
    documentation := strTruthy model.documentation,
    folders := model.folders.map (writeTopFolder model) }

/-! ## Hierarchical reader (parser.ts, parseModelComplete path) -/

/-- parseBounds from parser.ts, with its 0/0/120/55 defaults. -/
def parseBounds (bounds : Option HBounds) : DiagramBounds :=
  { x := (bounds.bind (fun b => b.x)).getD 0,
    y := (bounds.bind (fun b => b.y)).getD 0,
    width := (bounds.bind (fun b => b.width)).getD 120,
    height := (bounds.bind (fun b => b.height)).getD 55 }

/-- parseConnections from parser.ts. -/
def parseConnections (conns : List HConnection) : List DiagramConnection :=
  conns.map (fun c =>
    ⟨c.id, c.sourceId, c.targetId, c.archimateRelationship.getD "",
     c.bendpoints.map (fun bp => ⟨bp.x.getD 0, bp.y.getD 0⟩)⟩)

mutual

/-- The per-child body of parseDiagramObjects (parser.ts). -/
def parseDiagramObject : HEntry → DiagramObject
  | .mk _ id _ _ _ _ _ _ _ archimateElement targetConnections bounds sourceConnections children =>
      .mk (jsOr id "")
          (jsOr archimateElement "")
          (parseBounds bounds)
          (parseConnections sourceConnections)
          (match targetConnections with
           | some s => if s == "" then [] else s.splitOn " "
           | none => [])
          (parseDiagramObjects children)

/-- parseDiagramObjects from parser.ts. -/
def parseDiagramObjects : List HEntry → List DiagramObject
  | [] => []
  | e :: es => parseDiagramObject e :: parseDiagramObjects es

end

/-- parseProperties from parser.ts. -/
def parseProperties (props : List HProperty) : List ArchiMateProperty :=
  props.map (fun p => ⟨p.key, p.value⟩)

/-- parseElement from parser.ts: `null` for a falsy xsi:type or a qualified
type outside the element table. -/
def parseElement (elem : HEntry) : Option ArchiMateElement :=
  match strTruthy elem.xsiType with
  | none => none
  | some xsiType =>
    match XmlTypeToElementType xsiType with
    | none => none
    | some elementType =>
        some { id := jsOr elem.id "",
               type := elementType,
               name := jsOr elem.name "",
               documentation := elem.documentation,
               properties := parseProperties elem.properties }

/-- The accessMap literal inside parseRelationship (parser.ts).  Note the map
has no default entry: an unlisted code yields `undefined`. -/
def accessTypeReadMap (s : String) : Option String :=
  if s == "1" then some "Read"
  else if s == "2" then some "Write"
  else if s == "3" then some "ReadWrite"
  else if s == "read" then some "Read"
  else if s == "write" then some "Write"
  else if s == "readWrite" then some "ReadWrite"
  else none

/-- parseRelationship from parser.ts. -/
def parseRelationship (elem : HEntry) : Option ArchiMateRelationship :=
  match strTruthy elem.xsiType with
  | none => none
  | some xsiType =>
    match XmlTypeToRelationshipType xsiType with
    | none => none
    | some relType =>
        some { id := jsOr elem.id "",
               type := relType,
               sourceId := jsOr elem.source "",
               targetId := jsOr elem.target "",
               name := elem.name,
               documentation := elem.documentation,
               accessType :=
                 (if relType == "Access" then
                    (strTruthy elem.accessTypeAttr).bind accessTypeReadMap
                  else none),
               influenceModifier :=
                 (if relType == "Influence" then strTruthy elem.modifier else none),
               properties := parseProperties elem.properties }

/-- parseDiagram from parser.ts (`null` unless the xsi:type is exactly
archimate:ArchimateDiagramModel; the viewpoint field is never read). -/
def parseDiagram (elem : HEntry) : Option ArchiMateDiagram :=
  if elem.xsiType == some "archimate:ArchimateDiagramModel" then
    some { id := jsOr elem.id "",
           name := jsOr elem.name "",
           viewpoint := none,
           documentation := elem.documentation,
           objects := parseDiagramObjects elem.children }
  else none

/-- The relationship test of the entry classification inside
parseModelComplete (parser.ts): `xsiType && XmlTypeToRelationshipType[xsiType]`. -/
def entryIsRelationship (e : HEntry) : Bool :=
  match strTruthy e.xsiType with
  | some x => (XmlTypeToRelationshipType x).isSome
  | none => false

/-- The entry-classification loop of processFolder inside parseModelComplete
(parser.ts): relationship entries go to the model relationship list, diagram
entries to the model diagram list, and the rest are parsed as folder
elements.  Returns (folder elements, relationships, diagrams) in traversal
order. -/
def processEntries :
    List HEntry → List ArchiMateElement × List ArchiMateRelationship × List ArchiMateDiagram
  | [] => ([], [], [])
  | e :: es =>
      let rest := processEntries es
      if entryIsRelationship e then
        match parseRelationship e with
        | some r => (rest.1, r :: rest.2.1, rest.2.2)
        | none => rest
      else if e.xsiType == some "archimate:ArchimateDiagramModel" then
        match parseDiagram e with
        | some d => (rest.1, rest.2.1, d :: rest.2.2)
        | none => rest
      else
        match parseElement e with
        | some el => (el :: rest.1, rest.2.1, rest.2.2)
        | none => rest

mutual

/-- processFolder from parseModelComplete (parser.ts): classify this folder's
entries, then recurse into subfolders; relationships and diagrams accumulate
in traversal order. -/
def processFolder :
    HFolder → ArchiMateFolder × List ArchiMateRelationship × List ArchiMateDiagram
  | .mk id name type elements folders =>
      let classified := processEntries elements
      let sub := processFolders folders
      (.mk id name (jsOr type "") classified.1 sub.1,
       classified.2.1 ++ sub.2.1,
       classified.2.2 ++ sub.2.2)

/-- processFolder over a folder list. -/
def processFolders :
    List HFolder → List ArchiMateFolder × List ArchiMateRelationship × List ArchiMateDiagram
  | [] => ([], [], [])
  | f :: fs =>
      let r := processFolder f
      let rs := processFolders fs
      (r.1 :: rs.1, r.2.1 ++ rs.2.1, r.2.2 ++ rs.2.2)

end

/-- parseModelComplete from parser.ts, given the already-parsed root element
(file access and XML text parsing are handled by parseModelCompleteFromFs). -/
def parseModelCompleteXml (xmlModel : HModel) : ArchiMateModel :=
  let processed := processFolders xmlModel.folders
  { id := xmlModel.id,
    name := xmlModel.name,
    version := jsOr xmlModel.version "5.0.0",
    documentation := xmlModel.documentation,
    folders := processed.1,
    relationships := processed.2.1,
    diagrams := processed.2.2 }

/-- The path resolution at the top of parseModel/parseModelComplete
(parser.ts): a path not ending in `.archimate` gets `model.archimate` joined
onto it (path.join is modelled as separator concatenation). -/
def resolveModelPath (modelPath : String) : String :=
  if modelPath.endsWith ".archimate" then modelPath
  else modelPath ++ "/model.archimate"

/-- parseModelComplete from parser.ts including its failure behavior.  The
file system is a map from paths to parsed documents: `none` means the file
does not exist; `some none` a document whose root archimate:model element is
missing; `some (some doc)` a document with the root present.  The two throws
of the source are the two `Except.error` cases. -/
def parseModelCompleteFromFs (fs : String → Option (Option HModel)) (modelPath : String) :
    Except String ArchiMateModel :=
  match fs (resolveModelPath modelPath) with
  | none => .error ("Model file not found: " ++ resolveModelPath modelPath)
  | some none => .error "Invalid ArchiMate model: missing archimate:model root element"
  | some (some xmlModel) => .ok (parseModelCompleteXml xmlModel)

/-! ## Flat (Open Exchange) codec document trees

The exchange XML is likewise modelled at the level of the tree handed to /
received from fast-xml-parser, with the text serialization as the identity:
numeric attributes are `Option Int`, localized text nodes are ExText. -/

/-- A language-tagged text node: `{ @_xml:lang, #text }`. -/
structure ExText where
  lang : String
  text : String
deriving DecidableEq, Repr

/-- An exchange `element` entry (exchange-reader.ts reads @_identifier,
@_xsi:type with an @_type fallback, localized name and documentation). -/
structure ExElement where
  identifier : Option String
  xsiType : Option String
  typeAttr : Option String
  name : Option ExText
  documentation : Option ExText
deriving DecidableEq, Repr

/-- An exchange `relationship` entry. -/
structure ExRelationship where
  identifier : Option String
  xsiType : Option String
  typeAttr : Option String
  source : Option String
  target : Option String
  name : Option ExText
  documentation : Option ExText
deriving DecidableEq, Repr

/-- An exchange view `node` entry. -/
structure ExNode where
  identifier : Option String
  elementRef : Option String
  x : Option Int
  y : Option Int
  w : Option Int
  h : Option Int
deriving DecidableEq, Repr

/-- An exchange view `connection` entry. -/
structure ExConnection where
  identifier : Option String
  relationshipRef : Option String
  source : Option String
  target : Option String
deriving DecidableEq, Repr

/-- An exchange `view` entry. -/
structure ExView where
  identifier : Option String
  viewpoint : Option String
  name : Option ExText
  documentation : Option ExText
  nodes : List ExNode
  connections : List ExConnection
deriving DecidableEq, Repr

/-- The exchange `model` root: elements, relationships and the optional
views/diagrams container (the writer emits views only when the model has at
least one diagram). -/
structure ExModelDoc where
  identifier : Option String
  name : Option ExText
  documentation : Option ExText
  elements : List ExElement
  relationships : List ExRelationship
  views : Option (List ExView)
deriving DecidableEq, Repr

/-! ## Flat writer (exchange-writer.ts) -/

/-- buildElement from exchange-writer.ts (type emitted bare, name always as a
localized node, documentation only when truthy). -/
def buildExElement (element : ArchiMateElement) : ExElement :=
  { identifier := some element.id,
    xsiType := some element.type,
    typeAttr := none,
    name := some ⟨"en", element.name⟩,
    documentation := (strTruthy element.documentation).map (fun d => ⟨"en", d⟩) }

/-- buildRelationship from exchange-writer.ts. -/
def buildExRelationship (rel : ArchiMateRelationship) : ExRelationship :=
  { identifier := some rel.id,
    xsiType := some rel.type,
    typeAttr := none,
    source := some rel.sourceId,
    target := some rel.targetId,
    name := (strTruthy rel.name).map (fun n => ⟨"en", n⟩),
    documentation := (strTruthy rel.documentation).map (fun d => ⟨"en", d⟩) }

/-- buildConnection from exchange-writer.ts. -/
def buildExConnection (conn : DiagramConnection) : ExConnection :=
  { identifier := some conn.id,
    relationshipRef := some conn.relationshipId,
    source := some conn.sourceId,
    target := some conn.targetId }

mutual

/-- The node half of collectObjects inside buildView (exchange-writer.ts):
one node per object, pre-order through the children. -/
def exNodesOfObj : DiagramObject → List ExNode
  | .mk id elementId bounds _ _ children =>
      ({ identifier := some id, elementRef := some elementId,
         x := some bounds.x, y := some bounds.y,
         w := some bounds.width, h := some bounds.height } : ExNode) ::
      exNodesOfObjs children

/-- exNodesOfObj over a list of objects. -/
def exNodesOfObjs : List DiagramObject → List ExNode
  | [] => []
  | o :: os => exNodesOfObj o ++ exNodesOfObjs os

end

mutual

/-- The connection half of collectObjects inside buildView
(exchange-writer.ts): each object's sourceConnections, pre-order through the
children. -/
def exConnsOfObj : DiagramObject → List ExConnection
  | .mk _ _ _ sourceConnections _ children =>
      sourceConnections.map buildExConnection ++ exConnsOfObjs children

/-- exConnsOfObj over a list of objects. -/
def exConnsOfObjs : List DiagramObject → List ExConnection
  | [] => []
  | o :: os => exConnsOfObj o ++ exConnsOfObjs os

end

/-- buildView from exchange-writer.ts. -/
def buildExView (diagram : ArchiMateDiagram) : ExView :=
  { identifier := some diagram.id,
    viewpoint := strTruthy diagram.viewpoint,
    name := some ⟨"en", diagram.name⟩,
    documentation := (strTruthy diagram.documentation).map (fun d => ⟨"en", d⟩),
    nodes := exNodesOfObjs diagram.objects,
    connections := exConnsOfObjs diagram.objects }

/-- writeExchangeFormat from exchange-writer.ts, up to (but not including)
XML text serialization. -/
def writeExchangeFormat (model : ArchiMateModel) : ExModelDoc :=
  { identifier := some model.id,
    name := some ⟨"en", model.name⟩,
    documentation := (strTruthy model.documentation).map (fun d => ⟨"en", d⟩),
    elements := (getAllElements model).map buildExElement,
    relationships := model.relationships.map buildExRelationship,
    views := if model.diagrams.isEmpty then none
             else some (model.diagrams.map buildExView) }

/-! ## Flat reader (exchange-reader.ts) -/

/-- getText from exchange-reader.ts, on a localized node that is present or
absent. -/
def getText (t : Option ExText) : String :=
  match t with
  | some x => x.text
  | none => ""

/-- mapElementType from exchange-reader.ts: the bare name must be in the
element enumeration. -/
def mapElementType (s : String) : Option String :=
  if s ∈ AllElementTypes then some s else none

/-- The Relationship-suffix strip inside mapRelationshipType
(exchange-reader.ts): `s.replace(/Relationship$/, '')`, i.e. drop the final
12 characters when the name ends with Relationship (written on the character
list so that it evaluates inside the kernel). -/
def stripRelSuffix (s : String) : String :=
  if ("Relationship".data).isSuffixOf s.data then ⟨s.data.take (s.data.length - 12)⟩
  else s

/-- mapRelationshipType from exchange-reader.ts. -/
def mapRelationshipType (s : String) : Option String :=
  let t := stripRelSuffix s
  if t ∈ RelationshipTypes then some t else none

/-- createFolderStructure from exchange-reader.ts: the synthesized nine-folder
skeleton. -/
def createFolderStructure : List ArchiMateFolder :=
  [.mk "folder-motivation" "Motivation" "motivation" [] [],
   .mk "folder-strategy" "Strategy" "strategy" [] [],
   .mk "folder-business" "Business" "business" [] [],
   .mk "folder-application" "Application" "application" [] [],
   .mk "folder-technology" "Technology & Physical" "technology" [] [],
   .mk "folder-implementation" "Implementation & Migration" "implementation_migration" [] [],
   .mk "folder-other" "Other" "other" [] [],
   .mk "folder-relations" "Relations" "relations" [] [],
   .mk "folder-diagrams" "Views" "diagrams" [] []]

/-- The kind-tags of the nine-folder skeleton, in order (used to state the
invariant preserved while the flat reader distributes elements). -/
def skeletonTypes : List String :=
  ["motivation", "strategy", "business", "application", "technology",
   "implementation_migration", "other", "relations", "diagrams"]

/-- getFolderForType from exchange-reader.ts, as the index of the folder the
element is pushed into: the first folder whose kind-tag matches the layer of
the element type, falling back to the first `other` folder.  `none` models
the non-null assertion failing (never reached from parseExchangeFormat, whose
folder list always contains an `other` folder). -/
def getFolderIndexForType (folders : List ArchiMateFolder) (elementType : String) :
    Option Nat :=
  (getLayerForElementType elementType).bind (fun layer =>
    match folders.findIdx? (fun f => f.type == LayerFolderTypes layer) with
    | some i => some i
    | none => folders.findIdx? (fun f => f.type == "other"))

/-- Append an element to the folder at the given index (the
`folder.elements.push(element)` of exchange-reader.ts). -/
def pushIntoFolder : List ArchiMateFolder → Nat → ArchiMateElement → List ArchiMateFolder
  | [], _, _ => []
  | f :: fs, 0, e =>
      (match f with | .mk i n t es sf => .mk i n t (es ++ [e]) sf) :: fs
  | f :: fs, n + 1, e => f :: pushIntoFolder fs n e

/-- parseElement from exchange-reader.ts. -/
def parseExElement (e : ExElement) : Option ArchiMateElement :=
  let typeAttr := jsOr e.xsiType (jsOr e.typeAttr "")
  match mapElementType typeAttr with
  | none => none
  | some elementType =>
      some { id := jsOr e.identifier "",
             type := elementType,
             name := getText e.name,
             documentation := strAttr (getText e.documentation),
             properties := [] }

/-- The element loop of parseExchangeFormat (exchange-reader.ts): parse each
entry and push it into the folder chosen by its layer. -/
def readExElements (folders : List ArchiMateFolder) :
    List ExElement → List ArchiMateFolder
  | [] => folders
  | e :: es =>
      match parseExElement e with
      | some el =>
          (match getFolderIndexForType folders el.type with
           | some i => readExElements (pushIntoFolder folders i el) es
           | none => readExElements folders es)
      | none => readExElements folders es

/-- parseRelationship from exchange-reader.ts. -/
def parseExRelationship (r : ExRelationship) : Option ArchiMateRelationship :=
  let typeAttr := jsOr r.xsiType (jsOr r.typeAttr "")
  match mapRelationshipType typeAttr with
  | none => none
  | some relType =>
      some { id := jsOr r.identifier "",
             type := relType,
             sourceId := jsOr r.source "",
             targetId := jsOr r.target "",
             name := strAttr (getText r.name),
             documentation := strAttr (getText r.documentation),
             accessType := none,
             influenceModifier := none,
             properties := [] }

/-- parseDiagramObject from exchange-reader.ts (flat: no connections or
children yet, bounds defaults 0/0/120/55 through Number(..) || d). -/
def parseExNode (n : ExNode) : DiagramObject :=
  .mk (jsOr n.identifier "")
      (jsOr n.elementRef "")
      { x := jsOrInt n.x 0, y := jsOrInt n.y 0,
        width := jsOrInt n.w 120, height := jsOrInt n.h 55 }
      [] [] []

/-- parseConnection from exchange-reader.ts (exchange connections carry no
bendpoints). -/
def parseExConnection (c : ExConnection) : DiagramConnection :=
  ⟨jsOr c.identifier "", jsOr c.source "", jsOr c.target "",
   jsOr c.relationshipRef "", []⟩

/-- parseDiagram from exchange-reader.ts: nodes become flat objects, each
connection is attached to the object whose id equals its source id (the
insertion-ordered connection map is equivalent to this filter). -/
def parseExView (v : ExView) : ArchiMateDiagram :=
  let objects := v.nodes.map parseExNode
  let conns := v.connections.map parseExConnection
  { id := jsOr v.identifier "",
    name := getText v.name,
    viewpoint := strTruthy v.viewpoint,
    documentation := strAttr (getText v.documentation),
    objects := objects.map
      (fun o => o.setSourceConnections (conns.filter (fun c => c.sourceId == o.id))) }

/-- parseExchangeFormat from exchange-reader.ts, given the parsed tree. -/
def parseExchangeFormat (doc : ExModelDoc) : ArchiMateModel :=
  { id := jsOr doc.identifier "model-1",
    name := (let n := getText doc.name; if n == "" then "Imported Model" else n),
    version := "5.0.0",
    documentation := strAttr (getText doc.documentation),
    folders := readExElements createFolderStructure doc.elements,
    relationships := doc.relationships.filterMap parseExRelationship,
    diagrams := (doc.views.getD []).map parseExView }

/-! ## Concrete fixtures used by counterexamples and witnesses -/

/-- A hierarchical Access-relationship entry carrying an accessType attribute
with the given value, as the reader receives it. -/
def accessEntryC7 (v : String) : HEntry :=
  .mk (some "archimate:AccessRelationship") (some "r1") none (some "a") (some "b")
      (some v) none none [] none none none [] []

/-- A diagram object nested as a child and referencing element e1. -/
def cexChildC4 : DiagramObject :=
  .mk "obj-child" "e1" ⟨10, 10, 50, 40⟩ [] [] []

/-- A top-level diagram object referencing element e2, with cexChildC4 nested
inside it. -/
def cexParentC4 : DiagramObject :=
  .mk "obj-parent" "e2" ⟨0, 0, 200, 150⟩ [] [] [cexChildC4]

/-- A model in which element e1 is both a relationship endpoint and placed in
a diagram as a nested child of another diagram object. -/
def cexModelC4 : ArchiMateModel :=
  { id := "m1", name := "M", version := "5.0.0", documentation := none,
    folders := [.mk "f1" "Business" "business"
      [⟨"e1", "BusinessActor", "A", none, []⟩, ⟨"e2", "BusinessRole", "B", none, []⟩] []],
    relationships := [⟨"r1", "Association", "e1", "e2", none, none, none, none, []⟩],
    diagrams := [⟨"d1", "View", none, none, [cexParentC4]⟩] }

/-- A nested child diagram object holding a connection that references
relationship r1. -/
def cexChildC5 : DiagramObject :=
  .mk "obj-child" "e1" ⟨10, 10, 50, 40⟩ [⟨"c1", "obj-child", "obj-other", "r1", []⟩] [] []

/-- A top-level diagram object with cexChildC5 nested inside it. -/
def cexParentC5 : DiagramObject :=
  .mk "obj-parent" "e2" ⟨0, 0, 200, 150⟩ [] [] [cexChildC5]

/-- A model in which relationship r1 is referenced by a diagram connection
held by a nested child diagram object. -/
def cexModelC5 : ArchiMateModel :=
  { id := "m1", name := "M", version := "5.0.0", documentation := none,
    folders := [.mk "f1" "Business" "business"
      [⟨"e1", "BusinessActor", "A", none, []⟩, ⟨"e2", "BusinessRole", "B", none, []⟩] []],
    relationships := [⟨"r1", "Association", "e1", "e2", none, none, none, none, []⟩],
    diagrams := [⟨"d1", "View", none, none, [cexParentC5]⟩] }

/-- A model holding one relationship but no folder tagged `relations`
(writeModel only emits relationships into such a folder). -/
def cexModelC2 : ArchiMateModel :=
  { id := "m1", name := "M", version := "5.0.0", documentation := none,
    folders := [],
    relationships := [⟨"r1", "Association", "a", "b", none, none, none, none, []⟩],
    diagrams := [] }

/-- A model with an element whose documentation is present but is the empty
string (truthiness drops it on write, so it reads back as absent). -/
def cexModelC3 : ArchiMateModel :=
  { id := "m1", name := "M", version := "5.0.0", documentation := none,
    folders := [.mk "f1" "Business" "business"
      [⟨"e1", "BusinessActor", "A", some "", []⟩] []],
    relationships := [],
    diagrams := [] }

/-- The standard nine-folder model used to witness the hierarchical
round-trip theorem: one element, one relationship, one diagram with a nested
child object, a connection and a bendpoint. -/
def witModelC2 : ArchiMateModel :=
  { id := "m1", name := "Witness", version := "5.0.0", documentation := some "doc",
    folders :=
      [.mk "f-business" "Business" "business"
         [⟨"e1", "BusinessActor", "Customer", some "an actor", []⟩,
          ⟨"e2", "BusinessProcess", "Order", none, [⟨"k", "v"⟩]⟩] [],
       .mk "f-other" "Other" "other" [] [],
       .mk "f-rel" "Relations" "relations" [] [],
       .mk "f-diag" "Views" "diagrams" [] []],
    relationships :=
      [⟨"r1", "Assignment", "e1", "e2", some "does", some "d", none, none, []⟩],
    diagrams :=
      [⟨"d1", "Main", none, some "view doc",
        [.mk "o1" "e1" ⟨0, 0, 120, 55⟩
           [⟨"c1", "o1", "o2", "r1", [⟨7, 8⟩]⟩] []
           [.mk "o2" "e2" ⟨10, 20, 80, 40⟩ [] ["c1"] []]]⟩] }

/-- The model used to witness the flat round-trip theorem. -/
def witModelC3 : ArchiMateModel :=
  { id := "m1", name := "Witness", version := "5.0.0", documentation := some "doc",
    folders :=
      [.mk "f-business" "Business" "business"
         [⟨"e1", "BusinessActor", "Customer", some "an actor", []⟩] [],
       .mk "f-app" "Application" "application"
         [⟨"e3", "DataObject", "Record", none, []⟩] []],
    relationships :=
      [⟨"r1", "Association", "e1", "e3", some "uses", none, none, none, []⟩],
    diagrams :=
      [⟨"d1", "Main", none, none,
        [.mk "o1" "e1" ⟨0, 0, 120, 55⟩ [⟨"c1", "o1", "o2", "r1", []⟩] []
           [.mk "o2" "e3" ⟨10, 20, 80, 40⟩ [] [] []]]⟩] }

/-! ## General helper lemmas -/

/-- `x || ''` for a present string is the string itself. -/
theorem jsOr_some_empty (s : String) : jsOr (some s) "" = s := by
  by_cases h : s = "" <;> simp [jsOr, h]

/-- Reading a truthily-written attribute back with default '' is the identity. -/
theorem jsOr_strAttr (s : String) : jsOr (strAttr s) "" = s := by
  by_cases h : s = "" <;> simp [jsOr, strAttr, h]

/-- A truthily-written optional value is unchanged when it is not the
present-but-empty string. -/
theorem strTruthy_eq_self {o : Option String} (h : o ≠ some "") : strTruthy o = o := by
  cases o with
  | none => rfl
  | some s =>
      have hs : s ≠ "" := fun he => h (by rw [he])
      simp [strTruthy, hs]

/-- Every enumerated element kind has a layer. -/
theorem allTypes_layer_isSome : ∀ k ∈ AllElementTypes, (getLayerForElementType k).isSome := by
  decide

/-- An element kind outside all enumerations has no layer (the source throws
`Unknown element type`). -/
theorem layer_none_of_not_mem {k : String} (h : k ∉ AllElementTypes) :
    getLayerForElementType k = none := by
  simp only [AllElementTypes, List.mem_append, not_or] at h
  obtain ⟨⟨⟨⟨⟨⟨h1, h2⟩, h3⟩, h4⟩, h5⟩, h6⟩, h7⟩ := h
  simp [getLayerForElementType, h1, h2, h3, h4, h5, h6, h7]

/-- An element kind outside all enumerations is classified Composite. -/
theorem category_composite_of_not_mem {k : String} (h : k ∉ AllElementTypes) :
    getElementCategory k = Category.Composite := by
  have s1 : ∀ x ∈ activeStructure, x ∈ AllElementTypes := by decide
  have s2 : ∀ x ∈ interfaces, x ∈ AllElementTypes := by decide
  have s3 : ∀ x ∈ behaviorInternal, x ∈ AllElementTypes := by decide
  have s4 : ∀ x ∈ services, x ∈ AllElementTypes := by decide
  have s5 : ∀ x ∈ events, x ∈ AllElementTypes := by decide
  have s6 : ∀ x ∈ passiveStructure, x ∈ AllElementTypes := by decide
  have s7 : ∀ x ∈ strategyList, x ∈ AllElementTypes := by decide
  have s8 : ∀ x ∈ motivationList, x ∈ AllElementTypes := by decide
  have s9 : ∀ x ∈ implMigration, x ∈ AllElementTypes := by decide
  have s10 : ∀ x ∈ compositeList, x ∈ AllElementTypes := by decide
  have n1 : k ∉ activeStructure := fun hx => h (s1 k hx)
  have n2 : k ∉ interfaces := fun hx => h (s2 k hx)
  have n3 : k ∉ behaviorInternal := fun hx => h (s3 k hx)
  have n4 : k ∉ services := fun hx => h (s4 k hx)
  have n5 : k ∉ events := fun hx => h (s5 k hx)
  have n6 : k ∉ passiveStructure := fun hx => h (s6 k hx)
  have n7 : k ∉ strategyList := fun hx => h (s7 k hx)
  have n8 : k ∉ motivationList := fun hx => h (s8 k hx)
  have n9 : k ∉ implMigration := fun hx => h (s9 k hx)
  have n10 : k ∉ compositeList := fun hx => h (s10 k hx)
  simp [getElementCategory, n1, n2, n3, n4, n5, n6, n7, n8, n9, n10]

/-- Every value of the Category type is one of the ten spec categories. -/
theorem category_mem_allCategories (c : Category) : c ∈ allCategories := by
  cases c <;> simp [allCategories]

/-! ## Claim C1 -/

/-- Claim C1: validate(DataObject, BusinessActor, Assignment) is not ok and
its suggestions list is exactly [Realization, Serving, Association, Flow], in
the fixed 11-kind enumeration order. -/
theorem claim_C1 :
    (validateRelationship "DataObject" "BusinessActor" "Assignment").map
      (fun v => (v.valid, v.suggestions)) =
    some (false, some ["Realization", "Serving", "Association", "Flow"]) := by
  decide

/-! ## Claim C9 -/

/-- Claim C9: for element kinds drawn from the full enumeration,
isValidRelationship with kind Specialization returns true exactly when the
source kind equals the target kind. -/
theorem claim_C9 (s t : String) (hs : s ∈ AllElementTypes) (ht : t ∈ AllElementTypes) :
    isValidRelationship s t "Specialization" = some (s == t) := by
  obtain ⟨sl, hsl⟩ := Option.isSome_iff_exists.mp (allTypes_layer_isSome s hs)
  obtain ⟨tl, htl⟩ := Option.isSome_iff_exists.mp (allTypes_layer_isSome t ht)
  unfold isValidRelationship
  simp only [hsl, htl, Option.bind_eq_bind, Option.some_bind]
  rfl

/-- Witness for claim C9 at the concrete pair (BusinessActor, DataObject). -/
theorem claim_C9_witness :
    ("BusinessActor" ∈ AllElementTypes ∧ "DataObject" ∈ AllElementTypes) ∧
    isValidRelationship "BusinessActor" "DataObject" "Specialization" = some false := by
  refine ⟨⟨by decide, by decide⟩, ?_⟩
  have h := claim_C9 "BusinessActor" "DataObject" (by decide) (by decide)
  simpa using h

/-! ## Claim C10 -/

/-- Claim C10: WorkPackage can never be the source of a legal Assignment:
for every target kind in the enumeration the validator answers false, because
the work-package branch requires category ActiveStructure while WorkPackage is
classified ImplementationMigration. -/
theorem claim_C10 (t : String) (ht : t ∈ AllElementTypes) :
    isValidRelationship "WorkPackage" t "Assignment" = some false := by
  obtain ⟨tl, htl⟩ := Option.isSome_iff_exists.mp (allTypes_layer_isSome t ht)
  unfold isValidRelationship
  simp only [htl, Option.bind_eq_bind, Option.some_bind]
  rfl

/-- Witness for claim C10 at the concrete target kind BusinessProcess. -/
theorem claim_C10_witness :
    ("BusinessProcess" ∈ AllElementTypes) ∧
    isValidRelationship "WorkPackage" "BusinessProcess" "Assignment" = some false :=
  ⟨by decide, claim_C10 "BusinessProcess" (by decide)⟩

/-! ## Claim C6 -/

/-- Claim C6: getLayerForElementType succeeds exactly on the enumerated kinds
(and fails, modelling the UnknownKind throw, on every other kind), while
getElementCategory is total: it always lands in the ten categories and
returns Composite on every kind outside the enumerations. -/
theorem claim_C6 (k : String) :
    ((getLayerForElementType k).isSome ↔ k ∈ AllElementTypes) ∧
    getElementCategory k ∈ allCategories ∧
    (k ∉ AllElementTypes → getElementCategory k = Category.Composite) := by
  refine ⟨⟨?_, fun h => allTypes_layer_isSome k h⟩,
          category_mem_allCategories _, fun h => category_composite_of_not_mem h⟩
  intro hs
  by_contra h
  rw [layer_none_of_not_mem h] at hs
  simp at hs

/-- Witness for claim C6 at the concrete unenumerated kind NotAKind. -/
theorem claim_C6_witness :
    getLayerForElementType "NotAKind" = none ∧
    getElementCategory "NotAKind" = Category.Composite := by
  have h := claim_C6 "NotAKind"
  refine ⟨?_, h.2.2 (by decide)⟩
  have hn : ¬ (getLayerForElementType "NotAKind").isSome := fun hs =>
    absurd (h.1.mp hs) (by decide)
  simpa [Option.not_isSome_iff_eq_none] using hn

/-! ## Claim C8 -/

/-- Claim C8: the hierarchical read fails exactly when the resolved file is
missing (with a NotFound-style message naming the path) or when the parsed
document lacks the archimate:model root (an InvalidDocument-style message);
with the root present it returns the parsed Model. -/
theorem claim_C8 (fs : String → Option (Option HModel)) (p : String) :
    (fs (resolveModelPath p) = none →
      parseModelCompleteFromFs fs p =
        Except.error ("Model file not found: " ++ resolveModelPath p)) ∧
    (fs (resolveModelPath p) = some none →
      parseModelCompleteFromFs fs p =
        Except.error "Invalid ArchiMate model: missing archimate:model root element") ∧
    (∀ doc, fs (resolveModelPath p) = some (some doc) →
      parseModelCompleteFromFs fs p = Except.ok (parseModelCompleteXml doc)) := by
  refine ⟨fun h => ?_, fun h => ?_, fun doc h => ?_⟩ <;>
    simp [parseModelCompleteFromFs, h]

/-- Witness for claim C8 on an empty file system: the read fails with the
NotFound-style message naming the resolved path. -/
theorem claim_C8_witness :
    parseModelCompleteFromFs (fun _ => none) "repo" =
      Except.error ("Model file not found: " ++ resolveModelPath "repo") :=
  (claim_C8 (fun _ => none) "repo").1 rfl

/-! ## Claim C7 -/

/-- Counterexample to claim C7 as stated: an Access relationship whose
accessType attribute is the unlisted code 0 decodes to NO qualifier
(the reader's access map has no default entry), not to ReadWrite. -/
theorem claim_C7_cex :
    (parseRelationship (accessEntryC7 "0")).map (fun r => r.accessType) = some none ∧
    (parseRelationship (accessEntryC7 "0")).map (fun r => r.accessType) ≠
      some (some "ReadWrite") := by
  decide

/-- Claim C7 (amended): reading an Access relationship with a non-empty
accessType attribute decodes Read for 1/read, Write for 2/write, ReadWrite
for 3/readWrite, and leaves the qualifier absent for any other value. -/
theorem claim_C7 (v : String) (hv : v ≠ "") :
    (parseRelationship (accessEntryC7 v)).map (fun r => r.accessType) =
      some (if v = "1" ∨ v = "read" then some "Read"
            else if v = "2" ∨ v = "write" then some "Write"
            else if v = "3" ∨ v = "readWrite" then some "ReadWrite"
            else none) := by
  have h1 : XmlTypeToRelationshipType "archimate:AccessRelationship" = some "Access" := by
    decide
  have h2 : (parseRelationship (accessEntryC7 v)).map (fun r => r.accessType) =
      some (accessTypeReadMap v) := by
    simp [parseRelationship, accessEntryC7, HEntry.xsiType, HEntry.accessTypeAttr,
      strTruthy, h1, hv]
  rw [h2]
  congr 1
  simp only [accessTypeReadMap]
  split_ifs <;> simp_all

/-- Witness for claim C7 at the concrete attribute value read. -/
theorem claim_C7_witness :
    ("read" ≠ "" : Prop) ∧
    (parseRelationship (accessEntryC7 "read")).map (fun r => r.accessType) =
      some (some "Read") := by
  refine ⟨by decide, ?_⟩
  have h := claim_C7 "read" (by decide)
  simpa using h

/-! ## Claim C4 -/

/-- Counterexample to claim C4 as stated: in cexModelC4, element e1 is a
relationship endpoint and is referenced by a nested child diagram object;
after removeElementFromModel the relationships are gone but one diagram
object referencing e1 remains (the code filters only top-level objects). -/
theorem claim_C4_cex :
    (removeElementFromModel cexModelC4 "e1").relationships = [] ∧
    modelCountElementRefs (removeElementFromModel cexModelC4 "e1") "e1" = 1 := by
  decide

/-- Claim C4 (amended): after removeElementFromModel no relationship has the
element as source or target, and no TOP-LEVEL diagram object of any diagram
references it; nested child objects are not removed. -/
theorem claim_C4 (m : ArchiMateModel) (elementId : String) :
    (∀ r ∈ (removeElementFromModel m elementId).relationships,
       r.sourceId ≠ elementId ∧ r.targetId ≠ elementId) ∧
    (∀ d ∈ (removeElementFromModel m elementId).diagrams, ∀ o ∈ d.objects,
       o.elementId ≠ elementId) := by
  constructor
  · intro r hr
    simp only [removeElementFromModel, List.mem_filter, Bool.and_eq_true,
      bne_iff_ne, ne_eq] at hr
    exact hr.2
  · intro d hd o ho
    simp only [removeElementFromModel, List.mem_map] at hd
    obtain ⟨d0, _, rfl⟩ := hd
    simp only [List.mem_filter, bne_iff_ne, ne_eq] at ho
    exact ho.2

/-- Witness for claim C4: removing an absent id leaves the relationship of
cexModelC4 in place, and the theorem yields that its source is not that id. -/
theorem claim_C4_witness :
    (⟨"r1", "Association", "e1", "e2", none, none, none, none, []⟩ : ArchiMateRelationship) ∈
      (removeElementFromModel cexModelC4 "eX").relationships ∧
    (⟨"r1", "Association", "e1", "e2", none, none, none, none, []⟩ :
      ArchiMateRelationship).sourceId ≠ "eX" :=
  ⟨by decide, ((claim_C4 cexModelC4 "eX").1 _ (by decide)).1⟩

/-! ## Claim C5 -/

/-- Counterexample to claim C5 as stated: in cexModelC5, relationship r1 is
referenced by a connection held by a nested child diagram object; after
removeRelationshipFromModel the relationship is gone but that connection
remains (the code purges only top-level objects' connection lists). -/
theorem claim_C5_cex :
    (removeRelationshipFromModel cexModelC5 "r1").relationships = [] ∧
    modelCountConnRefs (removeRelationshipFromModel cexModelC5 "r1") "r1" = 1 := by
  decide

/-- Claim C5 (amended): after removeRelationshipFromModel no relationship has
the removed id, and no connection held by a TOP-LEVEL diagram object of any
diagram references it; connections of nested child objects are not removed. -/
theorem claim_C5 (m : ArchiMateModel) (relationshipId : String) :
    (∀ r ∈ (removeRelationshipFromModel m relationshipId).relationships,
       r.id ≠ relationshipId) ∧
    (∀ d ∈ (removeRelationshipFromModel m relationshipId).diagrams, ∀ o ∈ d.objects,
       ∀ c ∈ o.sourceConnections, c.relationshipId ≠ relationshipId) := by
  constructor
  · intro r hr
    simp only [removeRelationshipFromModel, List.mem_filter, bne_iff_ne, ne_eq] at hr
    exact hr.2
  · intro d hd o ho c hc
    simp only [removeRelationshipFromModel, List.mem_map] at hd
    obtain ⟨d0, _, rfl⟩ := hd
    simp only [List.mem_map] at ho
    obtain ⟨o0, _, rfl⟩ := ho
    cases o0 with
    | mk i e b sc t cs =>
        simp only [DiagramObject.setSourceConnections, DiagramObject.sourceConnections,
          List.mem_filter, bne_iff_ne, ne_eq] at hc
        exact hc.2

/-- Witness for claim C5: removing an absent id leaves the relationship of
cexModelC5 in place, and the theorem yields that its id is not that id. -/
theorem claim_C5_witness :
    (⟨"r1", "Association", "e1", "e2", none, none, none, none, []⟩ : ArchiMateRelationship) ∈
      (removeRelationshipFromModel cexModelC5 "rX").relationships ∧
    (⟨"r1", "Association", "e1", "e2", none, none, none, none, []⟩ :
      ArchiMateRelationship).id ≠ "rX" :=
  ⟨by decide, (claim_C5 cexModelC5 "rX").1 _ (by decide)⟩

/-! ## Qualified-type table lemmas -/

/-- Every enumerated element kind maps to its namespaced xml name. -/
theorem elementType_toXml : ∀ t ∈ AllElementTypes,
    ElementTypeToXmlType t = some ("archimate:" ++ t) := by decide

/-- The xml name of every enumerated element kind maps back to it. -/
theorem xmlType_toElement : ∀ t ∈ AllElementTypes,
    XmlTypeToElementType ("archimate:" ++ t) = some t := by decide

/-- The xml name of an element kind is never a relationship xml name. -/
theorem xml_elem_not_rel : ∀ t ∈ AllElementTypes,
    XmlTypeToRelationshipType ("archimate:" ++ t) = none := by decide

/-- The xml name of an element kind is never the diagram xml name. -/
theorem xml_elem_not_diag : ∀ t ∈ AllElementTypes,
    "archimate:" ++ t ≠ "archimate:ArchimateDiagramModel" := by decide

/-- The xml name of an element kind is non-empty. -/
theorem elemXml_ne_empty : ∀ t ∈ AllElementTypes, "archimate:" ++ t ≠ "" := by decide

/-- Every relationship kind maps to its namespaced xml name. -/
theorem relType_toXml : ∀ t ∈ RelationshipTypes,
    RelationshipTypeToXmlType t = some ("archimate:" ++ t ++ "Relationship") := by decide

/-- The xml name of every relationship kind maps back to it. -/
theorem xmlType_toRel : ∀ t ∈ RelationshipTypes,
    XmlTypeToRelationshipType ("archimate:" ++ t ++ "Relationship") = some t := by decide

/-- The xml name of a relationship kind is non-empty. -/
theorem relXml_ne_empty : ∀ t ∈ RelationshipTypes,
    "archimate:" ++ t ++ "Relationship" ≠ "" := by decide

/-! ## Hierarchical single-entry round trips -/

/-- Reading a truthily-written attribute back with getD '' is the identity. -/
theorem getD_strAttr (s : String) : (strAttr s).getD "" = s := by
  by_cases h : s = "" <;> simp [strAttr, h]

/-- Properties survive the hierarchical codec unchanged. -/
theorem prop_roundtrip (ps : List ArchiMateProperty) :
    parseProperties (buildProperties ps) = ps := by
  induction ps with
  | nil => rfl
  | cons p rest ih =>
      cases p
      simpa [parseProperties, buildProperties] using ih

/-- An element with an enumerated kind and without present-but-empty
documentation survives the hierarchical codec unchanged. -/
theorem parseElement_buildElement (e : ArchiMateElement)
    (ht : e.type ∈ AllElementTypes) (hd : e.documentation ≠ some "") :
    parseElement (buildElement e) = some e := by
  have h1 := elementType_toXml e.type ht
  have h2 := xmlType_toElement e.type ht
  have h3 := elemXml_ne_empty e.type ht
  cases e with
  | mk i ty n doc ps =>
      simp only at h1 h2 h3 hd
      have hx : strTruthy (some ("archimate:" ++ ty)) = some ("archimate:" ++ ty) :=
        strTruthy_eq_self (fun hc => h3 (Option.some.inj hc))
      have hdoc : strTruthy doc = doc := strTruthy_eq_self hd
      simp [buildElement, parseElement, HEntry.xsiType, HEntry.id, HEntry.name,
        HEntry.documentation, HEntry.properties, h1, h2,
        hx, hdoc, jsOr_some_empty, prop_roundtrip]

/-- A relationship with an enumerated kind and without present-but-empty name
or documentation survives the hierarchical codec up to its kind-specific
qualifiers. -/
theorem parseRelationship_buildRelationship (r : ArchiMateRelationship)
    (ht : r.type ∈ RelationshipTypes) (hn : r.name ≠ some "")
    (hd : r.documentation ≠ some "") :
    parseRelationship (buildRelationship r) =
      some { r with
        accessType :=
          (if r.type == "Access" then
             (strTruthy (buildRelationship r).accessTypeAttr).bind accessTypeReadMap
           else none),
        influenceModifier :=
          (if r.type == "Influence" then strTruthy (buildRelationship r).modifier
           else none) } := by
  have h1 := relType_toXml r.type ht
  have h2 := xmlType_toRel r.type ht
  have h3 := relXml_ne_empty r.type ht
  cases r with
  | mk i ty s t n doc at' im ps =>
      simp only at h1 h2 h3 hn hd
      have hx : strTruthy (some ("archimate:" ++ ty ++ "Relationship")) =
          some ("archimate:" ++ ty ++ "Relationship") :=
        strTruthy_eq_self (fun hc => h3 (Option.some.inj hc))
      have hname : strTruthy n = n := strTruthy_eq_self hn
      have hdoc : strTruthy doc = doc := strTruthy_eq_self hd
      simp [buildRelationship, parseRelationship, HEntry.xsiType, HEntry.id, HEntry.name,
        HEntry.source, HEntry.target, HEntry.accessTypeAttr, HEntry.modifier,
        HEntry.documentation, HEntry.properties, h1, h2,
        hx, hname, hdoc, jsOr_some_empty, prop_roundtrip]

/-- Classification: a built element entry is not a relationship entry. -/
theorem entryIsRel_buildElement (e : ArchiMateElement) (ht : e.type ∈ AllElementTypes) :
    entryIsRelationship (buildElement e) = false := by
  have h1 := elementType_toXml e.type ht
  have h3 := elemXml_ne_empty e.type ht
  have h4 := xml_elem_not_rel e.type ht
  simp [entryIsRelationship, buildElement, HEntry.xsiType, h1, strTruthy, h3, h4]

/-- Classification: a built element entry is not a diagram entry. -/
theorem diagCheck_buildElement (e : ArchiMateElement) (ht : e.type ∈ AllElementTypes) :
    ((buildElement e).xsiType == some "archimate:ArchimateDiagramModel") = false := by
  have h1 := elementType_toXml e.type ht
  have h5 := xml_elem_not_diag e.type ht
  simp [buildElement, HEntry.xsiType, h1, h5]

/-- Classification: a built relationship entry is a relationship entry. -/
theorem entryIsRel_buildRelationship (r : ArchiMateRelationship)
    (ht : r.type ∈ RelationshipTypes) :
    entryIsRelationship (buildRelationship r) = true := by
  have h1 := relType_toXml r.type ht
  have h2 := xmlType_toRel r.type ht
  have h3 := relXml_ne_empty r.type ht
  simp [entryIsRelationship, buildRelationship, HEntry.xsiType, h1, strTruthy, h3, h2]

/-- Classification: a built diagram entry is not a relationship entry. -/
theorem entryIsRel_buildDiagram (d : ArchiMateDiagram) :
    entryIsRelationship (buildDiagram d) = false := by
  have h : XmlTypeToRelationshipType "archimate:ArchimateDiagramModel" = none := by decide
  simp [entryIsRelationship, buildDiagram, HEntry.xsiType, strTruthy, h]

/-! ## Hierarchical diagram-object tree round trip -/

/-- Diagram connections (ids, references, bendpoints) survive the
hierarchical codec unchanged. -/
theorem parseConnections_build (cs : List DiagramConnection) :
    parseConnections (cs.map buildConnection) = cs := by
  induction cs with
  | nil => rfl
  | cons c rest ih =>
      cases c with
      | mk cid csrc ctgt crel cbps =>
          simp only [List.map_cons, parseConnections] at ih ⊢
          refine List.cons_eq_cons.mpr ⟨?_, ih⟩
          simp [buildConnection, getD_strAttr]
          induction cbps with
          | nil => rfl
          | cons bp brest bih =>
              cases bp
              simpa using bih

mutual

/-- The shape (id, element reference, bounds, connections, child structure) of
a diagram object survives the hierarchical codec. -/
theorem objShape_roundtrip (o : DiagramObject) :
    objShape (parseDiagramObject (buildDiagramObject o)) = objShape o := by
  cases o with
  | mk i e b sc t cs =>
      simp [buildDiagramObject, parseDiagramObject, objShape, parseBounds,
        jsOr_some_empty, jsOr_strAttr, parseConnections_build,
        objShapes_roundtrip cs]

/-- objShape_roundtrip over a list of objects. -/
theorem objShapes_roundtrip (os : List DiagramObject) :
    objShapes (parseDiagramObjects (buildDiagramObjects os)) = objShapes os := by
  cases os with
  | nil => rfl
  | cons o os =>
      simp only [buildDiagramObjects, parseDiagramObjects, objShapes]
      rw [objShape_roundtrip o, objShapes_roundtrip os]

end

/-- A diagram without present-but-empty documentation survives the
hierarchical codec up to object shape. -/
theorem parseDiagram_buildDiagram (d : ArchiMateDiagram) (hd : d.documentation ≠ some "") :
    ∃ d2, parseDiagram (buildDiagram d) = some d2 ∧ diagramKey d2 = diagramKey d := by
  cases d with
  | mk i n vp doc objs =>
      simp only at hd
      refine ⟨{ id := i, name := n, viewpoint := none, documentation := doc,
                objects := parseDiagramObjects (buildDiagramObjects objs) }, ?_, ?_⟩
      · simp [buildDiagram, parseDiagram, HEntry.xsiType, HEntry.id, HEntry.name,
          HEntry.documentation, HEntry.children, jsOr_some_empty, strTruthy_eq_self hd]
      · simp [diagramKey, objShapes_roundtrip objs]

/-! ## Hierarchical folder round trip -/

/-- processEntries on built element entries recovers the elements exactly. -/
theorem processEntries_buildElements (es : List ArchiMateElement)
    (h : ∀ e ∈ es, e.type ∈ AllElementTypes ∧ e.documentation ≠ some "") :
    processEntries (es.map buildElement) = (es, [], []) := by
  induction es with
  | nil => rfl
  | cons e rest ih =>
      obtain ⟨ht, hd⟩ := h e (List.mem_cons_self e rest)
      have hrest := ih (fun x hx => h x (List.mem_cons_of_mem e hx))
      simp [processEntries, entryIsRel_buildElement e ht, diagCheck_buildElement e ht,
        parseElement_buildElement e ht hd, hrest]

/-- processEntries on built relationship entries recovers the relationships
up to their kind-specific qualifiers, preserving the claim key. -/
theorem processEntries_buildRelationships (rs : List ArchiMateRelationship)
    (h : ∀ r ∈ rs, r.type ∈ RelationshipTypes ∧ r.name ≠ some "" ∧
       r.documentation ≠ some "") :
    ∃ rs2, processEntries (rs.map buildRelationship) = ([], rs2, []) ∧
      rs2.map relationshipKey = rs.map relationshipKey := by
  induction rs with
  | nil => exact ⟨[], rfl, rfl⟩
  | cons r rest ih =>
      obtain ⟨ht, hn, hd⟩ := h r (List.mem_cons_self r rest)
      obtain ⟨rs2, hps, hkey⟩ := ih (fun x hx => h x (List.mem_cons_of_mem r hx))
      refine ⟨({ r with
          accessType :=
            (if r.type == "Access" then
               (strTruthy (buildRelationship r).accessTypeAttr).bind accessTypeReadMap
             else none),
          influenceModifier :=
            (if r.type == "Influence" then strTruthy (buildRelationship r).modifier
             else none) } : ArchiMateRelationship) :: rs2, ?_, ?_⟩
      · simp [processEntries, entryIsRel_buildRelationship r ht,
          parseRelationship_buildRelationship r ht hn hd, hps]
      · simp [hkey, relationshipKey]

/-- processEntries on built diagram entries recovers the diagrams up to
object shape, preserving the claim key. -/
theorem processEntries_buildDiagrams (ds : List ArchiMateDiagram)
    (h : ∀ d ∈ ds, d.documentation ≠ some "") :
    ∃ ds2, processEntries (ds.map buildDiagram) = ([], [], ds2) ∧
      ds2.map diagramKey = ds.map diagramKey := by
  induction ds with
  | nil => exact ⟨[], rfl, rfl⟩
  | cons d rest ih =>
      have hd := h d (List.mem_cons_self d rest)
      obtain ⟨ds2, hps, hkey⟩ := ih (fun x hx => h x (List.mem_cons_of_mem d hx))
      obtain ⟨d2, hparse, hdkey⟩ := parseDiagram_buildDiagram d hd
      refine ⟨d2 :: ds2, ?_, ?_⟩
      · have hdiag : ((buildDiagram d).xsiType ==
            some "archimate:ArchimateDiagramModel") = true := by
          simp [buildDiagram, HEntry.xsiType]
        simp [processEntries, entryIsRel_buildDiagram d, hdiag, hparse, hps]
      · simp [hkey, hdkey]

mutual

/-- A folder whose elements all have enumerated kinds and no
present-but-empty documentation survives buildFolder/processFolder exactly,
contributing no relationships or diagrams. -/
theorem processFolder_buildFolder (f : ArchiMateFolder)
    (h : ∀ e ∈ collectFolderElements f, e.type ∈ AllElementTypes ∧
       e.documentation ≠ some "") :
    processFolder (buildFolder f) = (f, [], []) := by
  cases f with
  | mk i n t es sf =>
      have hel : ∀ e ∈ es, e.type ∈ AllElementTypes ∧ e.documentation ≠ some "" :=
        fun e he => h e (by simp [collectFolderElements, he])
      have hsub : ∀ e ∈ collectFoldersElements sf,
          e.type ∈ AllElementTypes ∧ e.documentation ≠ some "" :=
        fun e he => h e (by simp [collectFolderElements, he])
      have hrec := processFolders_buildFolders sf hsub
      simp [buildFolder, processFolder, processEntries_buildElements es hel, hrec,
        jsOr_strAttr]

/-- processFolder_buildFolder over a folder list. -/
theorem processFolders_buildFolders (fs : List ArchiMateFolder)
    (h : ∀ e ∈ collectFoldersElements fs, e.type ∈ AllElementTypes ∧
       e.documentation ≠ some "") :
    processFolders (buildFolders fs) = (fs, [], []) := by
  cases fs with
  | nil => rfl
  | cons f fs =>
      have hf : ∀ e ∈ collectFolderElements f,
          e.type ∈ AllElementTypes ∧ e.documentation ≠ some "" :=
        fun e he => h e (by simp [collectFoldersElements, he])
      have hfs : ∀ e ∈ collectFoldersElements fs,
          e.type ∈ AllElementTypes ∧ e.documentation ≠ some "" :=
        fun e he => h e (by simp [collectFoldersElements, he])
      simp [buildFolders, processFolders, processFolder_buildFolder f hf,
        processFolders_buildFolders fs hfs]

end

/-- The effect of one top-level folder passing through write and read:
elements are preserved, a relations-tagged folder contributes the model
relationships, a diagrams-tagged folder the model diagrams. -/
theorem processFolder_writeTop (m : ArchiMateModel) (f : ArchiMateFolder)
    (hel : ∀ e ∈ collectFolderElements f, e.type ∈ AllElementTypes ∧
       e.documentation ≠ some "")
    (hrels : ∀ r ∈ m.relationships, r.type ∈ RelationshipTypes ∧ r.name ≠ some "" ∧
       r.documentation ≠ some "")
    (hdiags : ∀ d ∈ m.diagrams, d.documentation ≠ some "")
    (hrelEmpty : f.type = "relations" → f.elements = [] ∧ f.subfolders = [])
    (hdiagEmpty : f.type = "diagrams" → f.elements = []) :
    collectFolderElements (processFolder (writeTopFolder m f)).1 =
      collectFolderElements f ∧
    (processFolder (writeTopFolder m f)).2.1.map relationshipKey =
      (if f.type == "relations" then m.relationships.map relationshipKey else []) ∧
    (processFolder (writeTopFolder m f)).2.2.map diagramKey =
      (if f.type == "diagrams" then m.diagrams.map diagramKey else []) := by
  by_cases h1 : f.type = "relations"
  · obtain ⟨he, hs⟩ := hrelEmpty h1
    obtain ⟨rs2, hps, hkey⟩ := processEntries_buildRelationships m.relationships hrels
    cases f with
    | mk i n t es sf =>
        simp only [ArchiMateFolder.type] at h1
        simp only [ArchiMateFolder.elements] at he
        simp only [ArchiMateFolder.subfolders] at hs
        subst h1 he hs
        simp [writeTopFolder, processFolder, ArchiMateFolder.type, hps, hkey,
          collectFolderElements, collectFoldersElements, processFolders]
  · by_cases h2 : f.type = "diagrams"
    · have he := hdiagEmpty h2
      obtain ⟨ds2, hps, hkey⟩ := processEntries_buildDiagrams m.diagrams hdiags
      cases f with
      | mk i n t es sf =>
          simp only [ArchiMateFolder.type] at h1 h2
          simp only [ArchiMateFolder.elements] at he
          subst h2 he
          have hsub : ∀ e ∈ collectFoldersElements sf,
              e.type ∈ AllElementTypes ∧ e.documentation ≠ some "" :=
            fun e hmem => hel e (by simp [collectFolderElements, hmem])
          have hrec := processFolders_buildFolders sf hsub
          simp [writeTopFolder, processFolder, ArchiMateFolder.type,
            ArchiMateFolder.subfolders, ArchiMateFolder.elements, hps, hkey,
            collectFolderElements, hrec]
    · have hb1 : (f.type == "relations") = false := by simp [h1]
      have hb2 : (f.type == "diagrams") = false := by simp [h2]
      simp [writeTopFolder, hb1, hb2, processFolder_buildFolder f hel]

/-- processFolder_writeTop over the top-level folder list. -/
theorem processFolders_writeTop (m : ArchiMateModel) (fs : List ArchiMateFolder)
    (hel : ∀ e ∈ collectFoldersElements fs, e.type ∈ AllElementTypes ∧
       e.documentation ≠ some "")
    (hrels : ∀ r ∈ m.relationships, r.type ∈ RelationshipTypes ∧ r.name ≠ some "" ∧
       r.documentation ≠ some "")
    (hdiags : ∀ d ∈ m.diagrams, d.documentation ≠ some "")
    (hrelEmpty : ∀ f ∈ fs, f.type = "relations" → f.elements = [] ∧ f.subfolders = [])
    (hdiagEmpty : ∀ f ∈ fs, f.type = "diagrams" → f.elements = []) :
    collectFoldersElements (processFolders (fs.map (writeTopFolder m))).1 =
      collectFoldersElements fs ∧
    (processFolders (fs.map (writeTopFolder m))).2.1.map relationshipKey =
      (fs.map (fun f => if f.type == "relations"
         then m.relationships.map relationshipKey else [])).join ∧
    (processFolders (fs.map (writeTopFolder m))).2.2.map diagramKey =
      (fs.map (fun f => if f.type == "diagrams"
         then m.diagrams.map diagramKey else [])).join := by
  induction fs with
  | nil => exact ⟨rfl, rfl, rfl⟩
  | cons f fs ih =>
      have hf : ∀ e ∈ collectFolderElements f,
          e.type ∈ AllElementTypes ∧ e.documentation ≠ some "" :=
        fun e hmem => hel e (by simp [collectFoldersElements, hmem])
      have hfs : ∀ e ∈ collectFoldersElements fs,
          e.type ∈ AllElementTypes ∧ e.documentation ≠ some "" :=
        fun e hmem => hel e (by simp [collectFoldersElements, hmem])
      obtain ⟨ih1, ih2, ih3⟩ := ih hfs
        (fun x hx => hrelEmpty x (List.mem_cons_of_mem f hx))
        (fun x hx => hdiagEmpty x (List.mem_cons_of_mem f hx))
      obtain ⟨p1, p2, p3⟩ := processFolder_writeTop m f hf hrels hdiags
        (hrelEmpty f (List.mem_cons_self f fs))
        (hdiagEmpty f (List.mem_cons_self f fs))
      refine ⟨?_, ?_, ?_⟩ <;>
        simp [processFolders, collectFoldersElements, p1, p2, p3, ih1, ih2, ih3]

/-- Joining per-item payloads that are empty off the predicate yields nothing
when no item satisfies the predicate. -/
theorem join_nil_of_filter_nil {α β : Type} (p : α → Bool) (payload : List β)
    (L : List α) (h : ∀ a ∈ L, ¬ p a = true) :
    (L.map (fun a => if p a then payload else [])).join = [] := by
  induction L with
  | nil => rfl
  | cons a as ih =>
      have ha : p a = false := by
        have := h a (List.mem_cons_self a as)
        simpa using this
      simp [ha, ih (fun x hx => h x (List.mem_cons_of_mem a hx))]

/-- Joining per-item payloads that are empty off the predicate yields exactly
one payload when exactly one item satisfies the predicate. -/
theorem join_filter_single {α β : Type} (p : α → Bool) (payload : List β)
    (L : List α) (h : (L.filter p).length = 1) :
    (L.map (fun a => if p a then payload else [])).join = payload := by
  induction L with
  | nil => simp at h
  | cons a as ih =>
      by_cases hp : p a = true
      · rw [List.filter_cons, if_pos hp, List.length_cons] at h
        have hn : (as.filter p).length = 0 := by omega
        have hnil : ∀ x ∈ as, ¬ p x = true := by
          intro x hx hpx
          have hmem : x ∈ as.filter p := List.mem_filter.mpr ⟨hx, hpx⟩
          rw [List.length_eq_zero] at hn
          simp [hn] at hmem
        simp [hp, join_nil_of_filter_nil p payload as hnil]
      · have hp' : p a = false := by simpa using hp
        rw [List.filter_cons, if_neg hp] at h
        simp [hp', ih h]

/-! ## Claim C2 -/

/-- Counterexample to claim C2 as stated: a Model holding a relationship but
no relations-tagged folder loses the relationship across the hierarchical
round trip (writeModel only emits relationships into a relations-tagged
folder). -/
theorem claim_C2_cex :
    (parseModelCompleteXml (writeModelXml cexModelC2)).relationships.map relationshipKey ≠
      cexModelC2.relationships.map relationshipKey := by
  decide

/-- Claim C2 (amended): for a Model whose top-level folders contain exactly
one relations-tagged folder (holding no elements or subfolders of its own)
and exactly one diagrams-tagged folder (holding no elements of its own),
whose element and relationship kinds are drawn from the enumerations, and
whose optional name/documentation fields are never the present-but-empty
string, the hierarchical round trip reproduces identical id, kind, name and
documentation for every element and relationship, and identical ids, element
references, bounds, connections (with bendpoints) and nesting structure for
every diagram object. -/
theorem claim_C2 (m : ArchiMateModel)
    (hrelCount : (m.folders.filter (fun f => f.type == "relations")).length = 1)
    (hdiagCount : (m.folders.filter (fun f => f.type == "diagrams")).length = 1)
    (hrelEmpty : ∀ f ∈ m.folders, f.type = "relations" →
       f.elements = [] ∧ f.subfolders = [])
    (hdiagEmpty : ∀ f ∈ m.folders, f.type = "diagrams" → f.elements = [])
    (helems : ∀ e ∈ getAllElements m, e.type ∈ AllElementTypes ∧
       e.documentation ≠ some "")
    (hrels : ∀ r ∈ m.relationships, r.type ∈ RelationshipTypes ∧ r.name ≠ some "" ∧
       r.documentation ≠ some "")
    (hdiags : ∀ d ∈ m.diagrams, d.documentation ≠ some "") :
    (getAllElements (parseModelCompleteXml (writeModelXml m))).map elementKey =
      (getAllElements m).map elementKey ∧
    (parseModelCompleteXml (writeModelXml m)).relationships.map relationshipKey =
      m.relationships.map relationshipKey ∧
    (parseModelCompleteXml (writeModelXml m)).diagrams.map diagramKey =
      m.diagrams.map diagramKey := by
  obtain ⟨p1, p2, p3⟩ := processFolders_writeTop m m.folders helems hrels hdiags
    hrelEmpty hdiagEmpty
  refine ⟨?_, ?_, ?_⟩
  · have hmap := congrArg (List.map elementKey) p1
    simpa [parseModelCompleteXml, writeModelXml, getAllElements] using hmap
  · rw [show (parseModelCompleteXml (writeModelXml m)).relationships =
        (processFolders (m.folders.map (writeTopFolder m))).2.1 from rfl, p2]
    exact join_filter_single _ _ _ hrelCount
  · rw [show (parseModelCompleteXml (writeModelXml m)).diagrams =
        (processFolders (m.folders.map (writeTopFolder m))).2.2 from rfl, p3]
    exact join_filter_single _ _ _ hdiagCount

/-- Witness for claim C2 on the concrete witModelC2 (one element folder, the
standard relations and diagrams folders, one relationship, one diagram with a
nested child, a connection and a bendpoint). -/
theorem claim_C2_witness :
    (getAllElements (parseModelCompleteXml (writeModelXml witModelC2))).map elementKey =
      (getAllElements witModelC2).map elementKey ∧
    (parseModelCompleteXml (writeModelXml witModelC2)).relationships.map relationshipKey =
      witModelC2.relationships.map relationshipKey ∧
    (parseModelCompleteXml (writeModelXml witModelC2)).diagrams.map diagramKey =
      witModelC2.diagrams.map diagramKey := by
  refine claim_C2 witModelC2 (by decide) (by decide) ?_ ?_ (by decide) (by decide) (by decide)
  · intro f hf
    simp only [witModelC2, List.mem_cons, List.not_mem_nil, or_false] at hf
    rcases hf with rfl | rfl | rfl | rfl <;>
      simp [ArchiMateFolder.type, ArchiMateFolder.elements, ArchiMateFolder.subfolders]
  · intro f hf
    simp only [witModelC2, List.mem_cons, List.not_mem_nil, or_false] at hf
    rcases hf with rfl | rfl | rfl | rfl <;>
      simp [ArchiMateFolder.type, ArchiMateFolder.elements]

/-! ## Flat codec single-entry round trips -/

/-- No enumerated element kind is the empty string. -/
theorem allTypes_ne_empty : ∀ t ∈ AllElementTypes, t ≠ "" := by decide

/-- No relationship kind is the empty string. -/
theorem relTypes_ne_empty : ∀ t ∈ RelationshipTypes, t ≠ "" := by decide

/-- No relationship kind carries the optional Relationship suffix. -/
theorem relTypes_strip : ∀ t ∈ RelationshipTypes, stripRelSuffix t = t := by decide

/-- `x || d` for a present non-empty string is the string itself. -/
theorem jsOr_some_of_ne (s d : String) (h : s ≠ "") : jsOr (some s) d = s := by
  simp [jsOr, h]

/-- getText of a present localized node is its text. -/
theorem getText_some (lang s : String) : getText (some ⟨lang, s⟩) = s := rfl

/-- A localized text field written truthily reads back to the original
optional string, provided it is not present-but-empty. -/
theorem exText_roundtrip {o : Option String} (h : o ≠ some "") :
    strAttr (getText ((strTruthy o).map (fun d => (⟨"en", d⟩ : ExText)))) = o := by
  cases o with
  | none => rfl
  | some s =>
      have hs : s ≠ "" := fun he => h (by rw [he])
      simp [strTruthy, hs, getText, strAttr]

/-- An element with an enumerated kind and without present-but-empty
documentation survives the flat codec up to its properties (which the flat
writer does not emit). -/
theorem parseExElement_build (e : ArchiMateElement)
    (ht : e.type ∈ AllElementTypes) (hd : e.documentation ≠ some "") :
    parseExElement (buildExElement e) = some { e with properties := [] } := by
  have hne := allTypes_ne_empty e.type ht
  cases e with
  | mk i ty n doc ps =>
      simp only at ht hd hne
      simp [buildExElement, parseExElement, jsOr_some_of_ne ty _ hne,
        mapElementType, ht, jsOr_some_empty, getText_some, exText_roundtrip hd]

/-- A relationship with an enumerated kind and without present-but-empty name
or documentation survives the flat codec up to its qualifiers and properties
(which the flat writer does not emit). -/
theorem parseExRelationship_build (r : ArchiMateRelationship)
    (ht : r.type ∈ RelationshipTypes) (hn : r.name ≠ some "")
    (hd : r.documentation ≠ some "") :
    parseExRelationship (buildExRelationship r) =
      some { r with accessType := none, influenceModifier := none, properties := [] } := by
  have hne := relTypes_ne_empty r.type ht
  have hstrip := relTypes_strip r.type ht
  cases r with
  | mk i ty s t n doc at' im ps =>
      simp only at ht hn hd hne hstrip
      have hmap : mapRelationshipType ty = some ty := by
        simp [mapRelationshipType, hstrip, ht]
      simp [buildExRelationship, parseExRelationship, jsOr_some_of_ne ty _ hne,
        hmap, jsOr_some_empty, getText_some, exText_roundtrip hn, exText_roundtrip hd]

/-- The relationship list survives the flat codec with identical ids, kinds,
names, documentation and source/target references. -/
theorem exRelationships_roundtrip (rs : List ArchiMateRelationship)
    (h : ∀ r ∈ rs, r.type ∈ RelationshipTypes ∧ r.name ≠ some "" ∧
       r.documentation ≠ some "") :
    ((rs.map buildExRelationship).filterMap parseExRelationship).map exRelationshipKey =
      rs.map exRelationshipKey := by
  induction rs with
  | nil => rfl
  | cons r rest ih =>
      obtain ⟨ht, hn, hd⟩ := h r (List.mem_cons_self r rest)
      have hrest := ih (fun x hx => h x (List.mem_cons_of_mem r hx))
      simp only [List.map_cons, List.filterMap_cons, parseExRelationship_build r ht hn hd]
      rw [hrest]
      rfl

/-! ## Flat codec view round trip -/

/-- jsOrInt with default 0 is the identity. -/
theorem jsOrInt_zero (v : Int) : jsOrInt (some v) 0 = v := by
  by_cases h : v = 0 <;> simp [jsOrInt, h]

/-- jsOrInt on a present non-zero value is the value. -/
theorem jsOrInt_of_ne (v d : Int) (h : v ≠ 0) : jsOrInt (some v) d = v := by
  simp [jsOrInt, h]

/-- setSourceConnections does not change the id of a diagram object. -/
theorem setSC_id (o : DiagramObject) (l : List DiagramConnection) :
    (o.setSourceConnections l).id = o.id := by cases o <;> rfl

/-- setSourceConnections does not change the element reference. -/
theorem setSC_elementId (o : DiagramObject) (l : List DiagramConnection) :
    (o.setSourceConnections l).elementId = o.elementId := by cases o <;> rfl

/-- setSourceConnections does not change the bounds. -/
theorem setSC_bounds (o : DiagramObject) (l : List DiagramConnection) :
    (o.setSourceConnections l).bounds = o.bounds := by cases o <;> rfl

/-- setSourceConnections does not change the children. -/
theorem setSC_children (o : DiagramObject) (l : List DiagramConnection) :
    (o.setSourceConnections l).children = o.children := by cases o <;> rfl

/-- flattenNodeKeys of a list of child-less objects is the per-object key
list. -/
theorem flattenNodeKeys_flat (os : List DiagramObject)
    (h : ∀ o ∈ os, o.children = []) :
    flattenNodeKeys os = os.map (fun o => (o.id, o.elementId, o.bounds)) := by
  induction os with
  | nil => rfl
  | cons o os ih =>
      have ho := h o (List.mem_cons_self o os)
      have hos := ih (fun x hx => h x (List.mem_cons_of_mem o hx))
      cases o with
      | mk i e b sc t cs =>
          simp only [DiagramObject.children] at ho
          subst ho
          simp [flattenNodeKeys, flattenNodeKey, hos,
            DiagramObject.id, DiagramObject.elementId, DiagramObject.bounds]

mutual

/-- The flat writer's node for an object, read back, carries the object's id,
element reference and bounds (pre-order through the children). -/
theorem exNodeKeys_roundtrip (o : DiagramObject)
    (h : ∀ k ∈ flattenNodeKey o, k.2.2.width ≠ 0 ∧ k.2.2.height ≠ 0) :
    ((exNodesOfObj o).map parseExNode).map
        (fun x => (x.id, x.elementId, x.bounds)) = flattenNodeKey o := by
  cases o with
  | mk i e b sc t cs =>
      have hb := h (i, e, b) (by simp [flattenNodeKey])
      have hrest : ∀ k ∈ flattenNodeKeys cs, k.2.2.width ≠ 0 ∧ k.2.2.height ≠ 0 :=
        fun k hk => h k (by simp [flattenNodeKey, hk])
      have hcs := exNodesKeys_roundtrip cs hrest
      simp only at hb
      cases b with
      | mk bx by' bw bh =>
          simp only at hb
          simp only [exNodesOfObj, flattenNodeKey, List.map_cons]
          refine List.cons_eq_cons.mpr ⟨?_, hcs⟩
          simp [parseExNode, DiagramObject.id, DiagramObject.elementId,
            DiagramObject.bounds, jsOr_some_empty, jsOrInt_zero,
            jsOrInt_of_ne _ _ hb.1, jsOrInt_of_ne _ _ hb.2]

/-- exNodeKeys_roundtrip over a list of objects. -/
theorem exNodesKeys_roundtrip (os : List DiagramObject)
    (h : ∀ k ∈ flattenNodeKeys os, k.2.2.width ≠ 0 ∧ k.2.2.height ≠ 0) :
    ((exNodesOfObjs os).map parseExNode).map
        (fun x => (x.id, x.elementId, x.bounds)) = flattenNodeKeys os := by
  cases os with
  | nil => rfl
  | cons o os =>
      have ho : ∀ k ∈ flattenNodeKey o, k.2.2.width ≠ 0 ∧ k.2.2.height ≠ 0 :=
        fun k hk => h k (by simp [flattenNodeKeys, hk])
      have hos : ∀ k ∈ flattenNodeKeys os, k.2.2.width ≠ 0 ∧ k.2.2.height ≠ 0 :=
        fun k hk => h k (by simp [flattenNodeKeys, hk])
      simp only [exNodesOfObjs, flattenNodeKeys, List.map_append]
      rw [exNodeKeys_roundtrip o ho, exNodesKeys_roundtrip os hos]

end

/-- A diagram without present-but-empty documentation and without zero
width/height bounds survives the flat codec with identical identity, name,
documentation and per-object (id, element reference, bounds) keys. -/
theorem parseExView_build (d : ArchiMateDiagram)
    (hdoc : d.documentation ≠ some "")
    (hb : ∀ k ∈ flattenNodeKeys d.objects, k.2.2.width ≠ 0 ∧ k.2.2.height ≠ 0) :
    exDiagramKey (parseExView (buildExView d)) = exDiagramKey d := by
  cases d with
  | mk i n vp doc objs =>
      simp only at hdoc hb
      have hflat : ∀ o ∈ ((exNodesOfObjs objs).map parseExNode).map
          (fun o => o.setSourceConnections
            (((exConnsOfObjs objs).map parseExConnection).filter
              (fun c => c.sourceId == o.id))), o.children = [] := by
        intro o ho
        simp only [List.mem_map] at ho
        obtain ⟨o1, ⟨n1, hn1, rfl⟩, rfl⟩ := ho
        rw [setSC_children]
        rfl
      have hkeyeq : ∀ x : DiagramObject, ((fun o => (o.id, o.elementId, o.bounds)) ∘
          (fun o => DiagramObject.setSourceConnections o
            (((exConnsOfObjs objs).map parseExConnection).filter
              (fun c => c.sourceId == o.id)))) x = (x.id, x.elementId, x.bounds) := by
        intro x
        simp [Function.comp, setSC_id, setSC_elementId, setSC_bounds]
      have h4 : flattenNodeKeys (((exNodesOfObjs objs).map parseExNode).map
          (fun o => o.setSourceConnections
            (((exConnsOfObjs objs).map parseExConnection).filter
              (fun c => c.sourceId == o.id)))) = flattenNodeKeys objs := by
        rw [flattenNodeKeys_flat _ hflat, List.map_map,
          List.map_congr_left (fun x _ => hkeyeq x)]
        exact exNodesKeys_roundtrip objs hb
      simp only [buildExView, parseExView, exDiagramKey, jsOr_some_empty, getText_some,
        exText_roundtrip hdoc, h4]

/-! ## Flat codec element placement -/

/-- Pushing an element into a folder does not change the folder kind-tags. -/
theorem pushIntoFolder_types (folders : List ArchiMateFolder) (i : Nat)
    (e : ArchiMateElement) :
    (pushIntoFolder folders i e).map (fun f => f.type) =
      folders.map (fun f => f.type) := by
  induction folders generalizing i with
  | nil => cases i <;> rfl
  | cons f fs ih =>
      cases i with
      | zero => cases f with | mk a b c d g => simp [pushIntoFolder, ArchiMateFolder.type]
      | succ j => simp [pushIntoFolder, ih j]

/-- Pushing an element into a folder at a valid index adds exactly that
element to the collected elements (up to permutation). -/
theorem collect_push (folders : List ArchiMateFolder) (i : Nat) (e : ArchiMateElement)
    (hi : i < folders.length) :
    (collectFoldersElements (pushIntoFolder folders i e)).Perm
      (e :: collectFoldersElements folders) := by
  induction folders generalizing i with
  | nil => simp at hi
  | cons f fs ih =>
      cases i with
      | zero =>
          cases f with
          | mk a b c es sf =>
              simp only [pushIntoFolder, collectFoldersElements, collectFolderElements,
                List.append_assoc]
              exact List.perm_middle
      | succ j =>
          have hj : j < fs.length := by simpa using hi
          simp only [pushIntoFolder, collectFoldersElements]
          exact (List.Perm.append_left (collectFolderElements f) (ih j hj)).trans
            List.perm_middle

/-- Any enumerated element kind finds a target folder in a list with the
skeleton kind-tags, at an index inside the list. -/
theorem folderIndex_some (folders : List ArchiMateFolder) (t : String)
    (htypes : folders.map (fun f => f.type) = skeletonTypes)
    (ht : t ∈ AllElementTypes) :
    ∃ i, getFolderIndexForType folders t = some i ∧ i < folders.length := by
  obtain ⟨l, hl⟩ := Option.isSome_iff_exists.mp (allTypes_layer_isSome t ht)
  have hany_types : ∀ (gs : List ArchiMateFolder) (p : String → Bool),
      gs.any (fun f => p f.type) = (gs.map (fun f => f.type)).any p := by
    intro gs p
    induction gs with
    | nil => rfl
    | cons g gs ih => simp [ih]
  have hany : folders.any (fun f => f.type == LayerFolderTypes l) = true := by
    rw [hany_types folders (fun s => s == LayerFolderTypes l), htypes]
    cases l <;> decide
  have hsome : (folders.findIdx? (fun f => f.type == LayerFolderTypes l)).isSome := by
    rw [List.findIdx?_isSome]
    exact hany
  obtain ⟨i, hi⟩ := Option.isSome_iff_exists.mp hsome
  have hlt : i < folders.length := (List.findIdx?_eq_some_iff_findIdx_eq.mp hi).1
  exact ⟨i, by simp [getFolderIndexForType, hl, hi], hlt⟩

/-- The flat reader distributes the written elements into the skeleton,
preserving them (minus their properties) up to permutation. -/
theorem readEx_perm (es : List ArchiMateElement) (folders : List ArchiMateFolder)
    (htypes : folders.map (fun f => f.type) = skeletonTypes)
    (h : ∀ e ∈ es, e.type ∈ AllElementTypes ∧ e.documentation ≠ some "") :
    (collectFoldersElements (readExElements folders (es.map buildExElement))).Perm
      (collectFoldersElements folders ++
        es.map (fun e => { e with properties := [] })) := by
  induction es generalizing folders with
  | nil => simp [readExElements]
  | cons e rest ih =>
      obtain ⟨ht, hd⟩ := h e (List.mem_cons_self e rest)
      have hrest := fun x hx => h x (List.mem_cons_of_mem e hx)
      obtain ⟨i, hidx, hlt⟩ := folderIndex_some folders e.type htypes ht
      have hidx2 : getFolderIndexForType folders
          ({ e with properties := [] } : ArchiMateElement).type = some i := hidx
      have htypes2 : (pushIntoFolder folders i
          ({ e with properties := [] } : ArchiMateElement)).map (fun f => f.type) =
          skeletonTypes := by rw [pushIntoFolder_types]; exact htypes
      have step1 : readExElements folders ((e :: rest).map buildExElement) =
          readExElements
            (pushIntoFolder folders i ({ e with properties := [] }))
            (rest.map buildExElement) := by
        simp only [List.map_cons, readExElements, parseExElement_build e ht hd, hidx2]
      have p1 := ih (pushIntoFolder folders i ({ e with properties := [] }))
        htypes2 hrest
      have p2 := List.Perm.append_right
        (rest.map (fun x => ({ x with properties := [] } : ArchiMateElement)))
        (collect_push folders i ({ e with properties := [] }) hlt)
      have p3 : ((({ e with properties := [] } : ArchiMateElement) ::
            collectFoldersElements folders) ++
            rest.map (fun x => ({ x with properties := [] } : ArchiMateElement))).Perm
          (collectFoldersElements folders ++
            ((e :: rest).map (fun x => ({ x with properties := [] } :
              ArchiMateElement)))) := by
        simp only [List.map_cons, List.cons_append]
        exact List.perm_middle.symm
      rw [step1]
      exact (p1.trans p2).trans p3

/-! ## Claim C3 -/

/-- Counterexample to claim C3 as stated: an element documented with the
empty string loses it across the flat round trip (the writer's truthiness
guard drops it, so it reads back as absent, not as the empty string). -/
theorem claim_C3_cex :
    (getAllElements (parseExchangeFormat (writeExchangeFormat cexModelC3))).map
        (fun e => e.documentation) = [none] ∧
    (getAllElements cexModelC3).map (fun e => e.documentation) = [some ""] := by
  decide

/-- Claim C3 (amended): for a Model whose element and relationship kinds are
drawn from the enumerations, whose optional name/documentation fields are
never the present-but-empty string, and whose diagram objects have non-zero
width and height, the flat round trip reproduces the elements' id, kind, name
and documentation up to reordering into the synthesized layer folders, the
relationships' id, kind, name, documentation and source/target references
exactly, and every diagram's identity, name, documentation and per-object
(id, element reference, bounds) keys (nesting is flattened). -/
theorem claim_C3 (m : ArchiMateModel)
    (helems : ∀ e ∈ getAllElements m, e.type ∈ AllElementTypes ∧
       e.documentation ≠ some "")
    (hrels : ∀ r ∈ m.relationships, r.type ∈ RelationshipTypes ∧ r.name ≠ some "" ∧
       r.documentation ≠ some "")
    (hdiags : ∀ d ∈ m.diagrams, d.documentation ≠ some "" ∧
       ∀ k ∈ flattenNodeKeys d.objects, k.2.2.width ≠ 0 ∧ k.2.2.height ≠ 0) :
    ((getAllElements (parseExchangeFormat (writeExchangeFormat m))).map
        elementKey).Perm ((getAllElements m).map elementKey) ∧
    (parseExchangeFormat (writeExchangeFormat m)).relationships.map
        exRelationshipKey = m.relationships.map exRelationshipKey ∧
    (parseExchangeFormat (writeExchangeFormat m)).diagrams.map exDiagramKey =
      m.diagrams.map exDiagramKey := by
  refine ⟨?_, ?_, ?_⟩
  · have hperm := readEx_perm (getAllElements m) createFolderStructure rfl helems
    have hcoll : collectFoldersElements createFolderStructure = [] := rfl
    rw [hcoll, List.nil_append] at hperm
    have hmap := hperm.map elementKey
    rw [List.map_map] at hmap
    have hcong : (getAllElements m).map (elementKey ∘
        (fun e => ({ e with properties := [] } : ArchiMateElement))) =
        (getAllElements m).map elementKey :=
      List.map_congr_left (fun x _ => rfl)
    rw [hcong] at hmap
    exact hmap
  · exact exRelationships_roundtrip m.relationships hrels
  · have hdefs : (parseExchangeFormat (writeExchangeFormat m)).diagrams =
        ((writeExchangeFormat m).views.getD []).map parseExView := rfl
    rw [hdefs]
    by_cases hempty : m.diagrams.isEmpty
    · rw [List.isEmpty_iff] at hempty
      simp [writeExchangeFormat, hempty]
    · have hviews : (writeExchangeFormat m).views = some (m.diagrams.map buildExView) := by
        simp [writeExchangeFormat, hempty]
      rw [hviews]
      simp only [Option.getD_some, List.map_map]
      exact List.map_congr_left (fun d hd =>
        parseExView_build d (hdiags d hd).1 (hdiags d hd).2)

/-- Witness for claim C3 on the concrete witModelC3 (two elements in two
layers, one relationship, one diagram with a nested child and a connection). -/
theorem claim_C3_witness :
    ((getAllElements (parseExchangeFormat (writeExchangeFormat witModelC3))).map
        elementKey).Perm ((getAllElements witModelC3).map elementKey) ∧
    (parseExchangeFormat (writeExchangeFormat witModelC3)).relationships.map
        exRelationshipKey = witModelC3.relationships.map exRelationshipKey ∧
    (parseExchangeFormat (writeExchangeFormat witModelC3)).diagrams.map exDiagramKey =
      witModelC3.diagrams.map exDiagramKey :=
  claim_C3 witModelC3 (by decide) (by decide) (by decide)

end ArchiMate
